import Mathlib

/-!
# evtsyslog: forwarding Windows event log records to syslog over UDP

A shallow embedding of `main_evtsyslog.cpp`.

Conventions of the embedding:

* machine integers are `Nat`/`Int`, reduced by an explicit modulus at every
  point where the C++ code narrows or reinterprets them;
* a C string (`char*`, `WCHAR*`) is the list of its characters before the
  terminating NUL; one `Char` of a narrow string stands for one byte, one
  `Char` of a wide string for one wide character, and the `%S` conversion of
  `snprintf` turns the latter into the former with the `wctomb` of the
  environment, which fails on a character the locale cannot convert;
* calls into Win32 are recorded in a trace (`Call`), and what they return is
  read from an environment record, so every theorem holds for every behaviour
  of the operating system;
* the service process is a step function on a state that holds both threads:
  the service thread and the control handler interleave statement by
  statement, the statements of `ReportSvcStatus` included, and the service
  control manager sends a stop request only to a service whose last report, as
  the manager received it, accepts it and is not `SERVICE_STOPPED`.
-/

namespace Evtsyslog

/-! ## Constants of the Windows SDK headers used by the program -/

/-- The value of `ERROR_INSUFFICIENT_BUFFER` in winerror.h. -/
def ERROR_INSUFFICIENT_BUFFER : Nat := 122

/-- The value of `ERROR_NOT_SUPPORTED` in winerror.h. -/
def ERROR_NOT_SUPPORTED : Nat := 50

/-- The value of `AF_INET` in winsock2.h. -/
def AF_INET : Nat := 2

/-- The value of `INADDR_NONE` in winsock2.h. -/
def INADDR_NONE : Nat := 0xFFFFFFFF

/-- The largest `unsigned long`; the type is 32 bits wide on Windows. -/
def ULONG_MAX : Nat := 2 ^ 32 - 1

/-- Source line 52: `constexpr unsigned PORT_NUMBER_DEFAULT = 514`. -/
def PORT_NUMBER_DEFAULT : Nat := 514

/-! ## Integer conversions -/

/-- Conversion of an integer value to the 32-bit signed types `int` and `long`. -/
def toInt32 (v : Int) : Int :=
  if v % 2 ^ 32 < 2 ^ 31 then v % 2 ^ 32 else v % 2 ^ 32 - 2 ^ 32

/-- Conversion of an integer value to `u_short` (16 bits, unsigned). -/
def toUShort (v : Int) : Nat :=
  (v % 2 ^ 16).toNat

/-- The function `htons` on a little-endian host: the two bytes of a 16-bit value swapped. -/
def htons (x : Nat) : Nat :=
  (x % 256) * 256 + (x / 256) % 256

/-- The function `ntohs`: the host-order reading of a big-endian 16-bit value. -/
def ntohs (x : Nat) : Nat :=
  htons x

/-! ## `wcstoul`, base 10 -/

/-- White space in the sense of `iswspace` for the "C" locale. -/
def iswspace (c : Char) : Bool :=
  c.toNat = 32 || (9 ≤ c.toNat && c.toNat ≤ 13)

/-- Decimal digits `0` to `9`. -/
def isDecDigit (c : Char) : Bool :=
  48 ≤ c.toNat && c.toNat ≤ 57

/-- The value of a decimal digit. -/
def digitVal (c : Char) : Nat :=
  c.toNat - 48

/-- The longest run of leading decimal digits, accumulated into a number. -/
def readDigits : List Char → Nat → Nat
  | [], acc => acc
  | c :: cs, acc => if isDecDigit c then readDigits cs (acc * 10 + digitVal c) else acc

/-- The C library function `wcstoul(s, NULL, 10)`: leading white space is skipped, one
optional sign is read, then the longest run of decimal digits; a subject without digits gives 0,
a value that does not fit gives `ULONG_MAX`, and a minus sign negates within `unsigned long`. -/
def wcstoul (s : List Char) : Nat :=
  match s.dropWhile iswspace with
  | '-' :: r =>
    if readDigits r 0 > ULONG_MAX then ULONG_MAX else (2 ^ 32 - readDigits r 0) % 2 ^ 32
  | '+' :: r =>
    if readDigits r 0 > ULONG_MAX then ULONG_MAX else readDigits r 0
  | r =>
    if readDigits r 0 > ULONG_MAX then ULONG_MAX else readDigits r 0

/-! ## Settings -/

/-- The globals `syslogIP` and `syslogPort` (source lines 54 to 57), both big endian. -/
structure Globals where
  syslogIP : Nat
  syslogPort : Nat
  deriving DecidableEq, Repr

/-- The initial values of the globals: no address, default port. -/
def Globals.initial : Globals :=
  { syslogIP := INADDR_NONE, syslogPort := htons PORT_NUMBER_DEFAULT }

/-- One item of the list returned by `GetAddrInfoEx`: its family and, for an IPv4 item, the
`S_addr` of its socket address. -/
structure ADDRINFOEX where
  ai_family : Nat
  S_addr : Nat
  deriving DecidableEq, Repr

/-- What the registry and the resolver answer during `LoadSettingsFromRegistry`. -/
structure Registry where
  /-- Tells whether `RegCreateKeyEx` returned `ERROR_SUCCESS`. -/
  keyOpened : Bool
  /-- The string `ReadRegistryString` delivers for "SyslogHost", `none` when it returns false. -/
  SyslogHost : Option (List Char)
  /-- The string `ReadRegistryString` delivers for "SyslogPort", `none` when it returns false. -/
  SyslogPort : Option (List Char)
  /-- The list produced by `GetAddrInfoEx` for a name, `none` when it does not return `NO_ERROR`. -/
  GetAddrInfoEx : List Char → Option (List ADDRINFOEX)

/-- Source lines 96 to 103: the first item of family `AF_INET` overwrites `syslogIP`. -/
def firstIPv4 : List ADDRINFOEX → Nat → Nat
  | [], ip => ip
  | item :: rest, ip =>
    if item.ai_family ≠ AF_INET then firstIPv4 rest ip else item.S_addr

/-- Source lines 87 to 106: the host part of `LoadSettingsFromRegistry`. -/
def loadHost (env : Registry) (g : Globals) : Bool × Globals :=
  match env.SyslogHost with
  | none => (false, g)
  | some tmp =>
    match env.GetAddrInfoEx tmp with
    | some res => (true, { g with syslogIP := firstIPv4 res g.syslogIP })
    | none => (true, g)

/-- Source lines 107 to 117: the port part of `LoadSettingsFromRegistry`. -/
def loadPort (env : Registry) (result : Bool) (g : Globals) : Bool × Globals :=
  match env.SyslogPort with
  | none => (false, g)
  | some tmp =>
    let portNum : Int := toInt32 (wcstoul tmp)
    if portNum = 0 ∨ portNum > 65535 then
      (false, { g with syslogPort := htons (toUShort PORT_NUMBER_DEFAULT) })
    else
      (result, { g with syslogPort := htons (toUShort portNum) })

/-- Source lines 80 to 120. -/
def LoadSettingsFromRegistry (env : Registry) (g : Globals) : Bool × Globals :=
  if env.keyOpened = false then (false, g)
  else
    let (result, g1) := loadHost env g
    loadPort env result g1

/-- The UDP destination port of a send: `sin.sin_port = syslogPort` is in network byte order. -/
def destPort (g : Globals) : Nat :=
  ntohs g.syslogPort

/-- Claim wording, "P is an unsigned decimal integer": a non-empty string of decimal digits;
the result is its value. -/
def unsignedDecimal? (P : List Char) : Option Nat :=
  if P ≠ [] ∧ P.all isDecDigit then some (P.foldl (fun n c => n * 10 + digitVal c) 0) else none

/-! ## The subscription callback -/

/-- The value of `EvtSubscribeActionDeliver` in winevt.h. -/
def EvtSubscribeActionDeliver : Nat := 1

/-- The value of `EvtSystemProviderName` in the enumeration `EVT_SYSTEM_PROPERTY_ID`. -/
def EvtSystemProviderName : Nat := 0

/-- The value of `EvtSystemEventID` in the enumeration `EVT_SYSTEM_PROPERTY_ID`. -/
def EvtSystemEventID : Nat := 2

/-- The value of `EvtSystemTimeCreated` in the enumeration `EVT_SYSTEM_PROPERTY_ID`. -/
def EvtSystemTimeCreated : Nat := 8

/-- The value of `EvtSystemProcessID` in the enumeration `EVT_SYSTEM_PROPERTY_ID`. -/
def EvtSystemProcessID : Nat := 12

/-- The value of `EvtSystemComputer` in the enumeration `EVT_SYSTEM_PROPERTY_ID`. -/
def EvtSystemComputer : Nat := 15

/-- The value of `EvtSystemUserID` in the enumeration `EVT_SYSTEM_PROPERTY_ID`. -/
def EvtSystemUserID : Nat := 16

/-- The tagged union `EVT_VARIANT`, with the types the callback tests for; `Null` is what
`EvtRender` stores for a property the event does not have. -/
inductive EVT_VARIANT where
  | Null
  | String (StringVal : List Char)
  | UInt16 (UInt16Val : Nat)
  | UInt32 (UInt32Val : Nat)
  | FileTime (FileTimeVal : Nat)
  | Other (tag : Nat)
  deriving DecidableEq, Repr

/-- The structure `SYSTEMTIME`. -/
structure SYSTEMTIME where
  wYear : Nat
  wMonth : Nat
  wDayOfWeek : Nat
  wDay : Nat
  wHour : Nat
  wMinute : Nat
  wSecond : Nat
  wMilliseconds : Nat
  deriving DecidableEq, Repr

/-- What the Win32 calls of one run of `EvtCallback` answer. -/
structure EventEnv where
  /-- The handle returned by `EvtCreateRenderContext`. -/
  renderCtx : Nat
  /-- Tells whether the sizing call of `EvtRender` (line 130) returned TRUE. -/
  probeRet : Bool
  /-- The value of `GetLastError` after the sizing call. -/
  probeErr : Nat
  /-- Tells whether the second call of `EvtRender` (line 134) returned TRUE. -/
  renderRet : Bool
  /-- The rendered array; `propertyCount` is its length. -/
  properties : List EVT_VARIANT
  /-- The conversion done by `FileTimeToSystemTime`. -/
  FileTimeToSystemTime : Nat → SYSTEMTIME
  /-- The handle returned by `EvtOpenPublisherMetadata`. -/
  metadata : Nat
  /-- Tells whether the sizing call of `EvtFormatMessage` (line 166) returned TRUE. -/
  formatProbeRet : Bool
  /-- The value of `GetLastError` after that sizing call. -/
  formatProbeErr : Nat
  /-- Tells whether the second call of `EvtFormatMessage` (line 177) returned TRUE. -/
  formatRet : Bool
  /-- The string the second call leaves in `formatBuffer`. -/
  formatBuffer : List Char
  /-- The value returned by `socket`; the type `SOCKET` is unsigned. -/
  socket : Nat
  /-- The bytes that `%S` writes for one wide character in the locale of the process, `none`
  for a character that cannot be converted. -/
  wctomb : Char → Option (List Char)
  /-- The number of bytes, out of those written so far, that stay in `msg` before the
  terminator when a conversion of `snprintf` fails; the C standard leaves it open. -/
  keptOnError : Nat

/-- The Win32 and C library calls of `EvtCallback`, in the order they are made. `property i`
stands for the reads of `properties[i]`. -/
inductive Call where
  | EvtCreateRenderContext (ret : Nat)
  | EvtRender (ret : Bool)
  | property (index : Nat)
  | FileTimeToSystemTime (fileTime : Nat)
  | EvtOpenPublisherMetadata (ret : Nat)
  | EvtFormatMessage (ret : Bool)
  | wprintf
  | socket (ret : Nat)
  | sendto (s : Nat) (buf : List Char) (addr : Nat) (port : Nat)
  | closesocket (s : Nat)
  | EvtClose (h : Nat)
  deriving DecidableEq, Repr

/-- The conversion `%0<width>u` of `snprintf`: decimal digits, zero-padded on the left to at
least `width` characters. -/
def fmtU (width : Nat) (n : Nat) : List Char :=
  List.replicate (width - (Nat.toDigits 10 n).length) '0' ++ Nat.toDigits 10 n

/-- The conversion `%d` of `snprintf`. -/
def fmtD (i : Int) : List Char :=
  if i < 0 then '-' :: Nat.toDigits 10 i.natAbs else Nat.toDigits 10 i.toNat

/-- The conversion `%S` of `snprintf` for a wide string: the bytes written, and whether the
whole string was converted. The wide characters are converted one after the other with
`wctomb`, up to the first one that cannot be converted. -/
def fmtS (wctomb : Char → Option (List Char)) : List Char → List Char × Bool
  | [] => ([], true)
  | c :: cs =>
    match wctomb c with
    | none => ([], false)
    | some bytes => (bytes ++ (fmtS wctomb cs).1, (fmtS wctomb cs).2)

/-- The output of the format string of line 185 up to its first `%S`. -/
def lineStart (sysTime : SYSTEMTIME) : List Char :=
  ['<'] ++ fmtD 3 ++ ['>', '1', ' ']
    ++ fmtU 4 sysTime.wYear ++ ['-'] ++ fmtU 2 sysTime.wMonth ++ ['-'] ++ fmtU 2 sysTime.wDay
    ++ ['T'] ++ fmtU 2 sysTime.wHour ++ [':'] ++ fmtU 2 sysTime.wMinute
    ++ [':'] ++ fmtU 2 sysTime.wSecond ++ ['.'] ++ fmtU 3 sysTime.wMilliseconds ++ ['Z', ' ']

/-- The complete output that the format string
`<%d>1 %04u-%02u-%02uT%02u:%02u:%02u.%03uZ %S %S %d %d - %S` of line 185 describes when the
three `%S` conversions write `computerName`, `providerName` and `formatBuffer`, before
`snprintf` cuts it to the size of `msg`. -/
def completeLine (sysTime : SYSTEMTIME) (computerName providerName : List Char)
    (eventID pid : Nat) (formatBuffer : List Char) : List Char :=
  ['<'] ++ fmtD 3 ++ ['>', '1', ' ']
    ++ fmtU 4 sysTime.wYear ++ ['-'] ++ fmtU 2 sysTime.wMonth ++ ['-'] ++ fmtU 2 sysTime.wDay
    ++ ['T'] ++ fmtU 2 sysTime.wHour ++ [':'] ++ fmtU 2 sysTime.wMinute
    ++ [':'] ++ fmtU 2 sysTime.wSecond ++ ['.'] ++ fmtU 3 sysTime.wMilliseconds ++ ['Z', ' ']
    ++ computerName ++ [' '] ++ providerName ++ [' ']
    ++ fmtD (toInt32 eventID) ++ [' '] ++ fmtD (toInt32 pid) ++ [' ', '-', ' ']
    ++ formatBuffer

/-- Source lines 184 to 198: what `snprintf` writes for the format string and the arguments,
before the cut to the size of `msg`, and whether it got to the end of the format string. It
stops at the first wide character of a `%S` argument that cannot be converted. -/
def formatLine (wctomb : Char → Option (List Char)) (sysTime : SYSTEMTIME)
    (computerName providerName : List Char) (eventID pid : Nat) (formatBuffer : List Char) :
    List Char × Bool :=
  if (fmtS wctomb computerName).2 = false then
    (lineStart sysTime ++ (fmtS wctomb computerName).1, false)
  else if (fmtS wctomb providerName).2 = false then
    (lineStart sysTime ++ (fmtS wctomb computerName).1 ++ [' ']
      ++ (fmtS wctomb providerName).1, false)
  else
    (completeLine sysTime (fmtS wctomb computerName).1 (fmtS wctomb providerName).1 eventID pid
      (fmtS wctomb formatBuffer).1, (fmtS wctomb formatBuffer).2)

/-- The call `snprintf(msg, sizeof(msg), ...)` with `char msg[2048]`: the string left in `msg`.
When the output is complete it is the output cut to 2047 characters, followed by the
terminator; when a conversion failed, `keptOnError` bytes of what was written stay at most. -/
def snprintf2048 (keptOnError : Nat) (written : List Char × Bool) : List Char :=
  if written.2 = true then written.1.take (2048 - 1)
  else (written.1.take keptOnError).take (2048 - 1)

/-- Source lines 164 to 211: what `EvtCallback` does once the five system properties are
extracted. -/
def formatAndSend (g : Globals) (env : EventEnv) (providerName : List Char)
    (sysTime : SYSTEMTIME) (pid : Nat) (computerName : List Char) (eventID : Nat) : List Call :=
  let t := [Call.EvtOpenPublisherMetadata env.metadata, Call.EvtFormatMessage env.formatProbeRet]
  if env.formatProbeRet = true then t
  else if env.formatProbeErr ≠ ERROR_INSUFFICIENT_BUFFER then
    t ++ [Call.wprintf, Call.EvtClose env.metadata, Call.EvtClose env.renderCtx]
  else if env.formatRet = true then
    if env.socket < 0 then
      t ++ [Call.EvtFormatMessage env.formatRet, Call.socket env.socket]
    else
      let msg := snprintf2048 env.keptOnError
        (formatLine env.wctomb sysTime computerName providerName eventID pid env.formatBuffer)
      t ++ [Call.EvtFormatMessage env.formatRet, Call.socket env.socket,
            Call.sendto env.socket msg g.syslogIP g.syslogPort, Call.closesocket env.socket,
            Call.EvtClose env.metadata, Call.EvtClose env.renderCtx]
  else
    t ++ [Call.EvtFormatMessage env.formatRet,
          Call.EvtClose env.metadata, Call.EvtClose env.renderCtx]

/-- Source lines 122 to 212. The result is the trace of calls made; the function itself
always returns 0. -/
def EvtCallback (g : Globals) (Action : Nat) (env : EventEnv) : List Call :=
  if Action ≠ EvtSubscribeActionDeliver then []
  else
    let t0 := [Call.EvtCreateRenderContext env.renderCtx, Call.EvtRender env.probeRet]
    if env.probeRet = true ∨ env.probeErr ≠ ERROR_INSUFFICIENT_BUFFER then t0
    else
      let t1 := t0 ++ [Call.EvtRender env.renderRet]
      if env.renderRet ≠ true then t1
      else if env.properties.length ≤ EvtSystemUserID then t1
      else
        match env.properties[EvtSystemProviderName]? with
        | some (EVT_VARIANT.String providerName) =>
          match env.properties[EvtSystemTimeCreated]? with
          | some (EVT_VARIANT.FileTime fileTime) =>
            let sysTime := env.FileTimeToSystemTime fileTime
            match env.properties[EvtSystemProcessID]? with
            | some (EVT_VARIANT.UInt32 pidVal) =>
              let pid := pidVal % 2 ^ 32
              match env.properties[EvtSystemComputer]? with
              | some (EVT_VARIANT.String computerName) =>
                match env.properties[EvtSystemEventID]? with
                | some (EVT_VARIANT.UInt16 idVal) =>
                  let eventID := idVal % 2 ^ 16
                  t1 ++ [Call.property EvtSystemProviderName,
                         Call.property EvtSystemTimeCreated, Call.FileTimeToSystemTime fileTime,
                         Call.property EvtSystemProcessID, Call.property EvtSystemComputer,
                         Call.property EvtSystemEventID]
                    ++ formatAndSend g env providerName sysTime pid computerName eventID
                | _ =>
                  t1 ++ [Call.property EvtSystemProviderName,
                         Call.property EvtSystemTimeCreated, Call.FileTimeToSystemTime fileTime,
                         Call.property EvtSystemProcessID, Call.property EvtSystemComputer,
                         Call.property EvtSystemEventID]
              | _ =>
                t1 ++ [Call.property EvtSystemProviderName,
                       Call.property EvtSystemTimeCreated, Call.FileTimeToSystemTime fileTime,
                       Call.property EvtSystemProcessID, Call.property EvtSystemComputer]
            | _ =>
              t1 ++ [Call.property EvtSystemProviderName,
                     Call.property EvtSystemTimeCreated, Call.FileTimeToSystemTime fileTime,
                     Call.property EvtSystemProcessID]
          | _ => t1 ++ [Call.property EvtSystemProviderName, Call.property EvtSystemTimeCreated]
        | _ => t1 ++ [Call.property EvtSystemProviderName]

/-- The payloads of the datagrams handed to `sendto` in a trace. -/
def datagrams : List Call → List (List Char)
  | [] => []
  | Call.sendto _ buf _ _ :: t => buf :: datagrams t
  | _ :: t => datagrams t

/-- The indices at which a trace reads the rendered property array. -/
def propertyReads : List Call → List Nat
  | [] => []
  | Call.property i :: t => i :: propertyReads t
  | _ :: t => propertyReads t

/-- The event-log handles and sockets a trace obtains. -/
def openedHandles : List Call → List Nat
  | [] => []
  | Call.EvtCreateRenderContext h :: t => h :: openedHandles t
  | Call.EvtOpenPublisherMetadata h :: t => h :: openedHandles t
  | Call.socket s :: t => s :: openedHandles t
  | _ :: t => openedHandles t

/-- The event-log handles and sockets a trace closes. -/
def closedHandles : List Call → List Nat
  | [] => []
  | Call.EvtClose h :: t => h :: closedHandles t
  | Call.closesocket s :: t => s :: closedHandles t
  | _ :: t => closedHandles t

/-! ## `RealMain` -/

/-- What the event-log service answers during one turn of the loop of source lines 232 to
252, for one channel of the enumeration. -/
structure ChannelStep where
  /-- Tells whether the sizing call of `EvtNextChannelPath` (line 234) returned TRUE. -/
  probeRet : Bool
  /-- The value of `GetLastError` after the sizing call. -/
  probeErr : Nat
  /-- Tells whether the second call of `EvtNextChannelPath` (line 238) returned TRUE. -/
  fetchRet : Bool
  /-- The channel path stored in `name`. -/
  name : List Char
  /-- The handle returned by `EvtSubscribe` for this channel, 0 for NULL. -/
  hnd : Nat
  /-- The value of `GetLastError` after `EvtSubscribe`. -/
  err : Nat
  deriving DecidableEq, Repr

/-- The locals `failedSome` and `subscriptions` of `RealMain`, with the channel paths passed
to `EvtSubscribe` so far. -/
structure LoopState where
  failedSome : Bool
  subscriptions : List Nat
  attempted : List (List Char)
  deriving DecidableEq, Repr

/-- Source lines 232 to 252. When the enumeration has no further channel the sizing call fails
with `ERROR_NO_MORE_ITEMS` and the loop is left. -/
def subscribeLoop : List ChannelStep → LoopState → LoopState
  | [], st => st
  | c :: rest, st =>
    if c.probeRet = true ∨ c.probeErr ≠ ERROR_INSUFFICIENT_BUFFER then st
    else if c.fetchRet ≠ true then st
    else
      let st1 := { st with attempted := st.attempted ++ [c.name] }
      if c.hnd = 0 then
        if c.err = ERROR_NOT_SUPPORTED then subscribeLoop rest st1
        else subscribeLoop rest { st1 with failedSome := true }
      else subscribeLoop rest { st1 with subscriptions := st1.subscriptions ++ [c.hnd] }

/-- What the system answers during the start of `RealMain`. -/
structure MainEnv where
  registry : Registry
  /-- The enumeration behind the handle of `EvtOpenChannelEnum`, `none` when it returns NULL. -/
  channels : Option (List ChannelStep)

/-- The calls of `RealMain` that matter for its outcome, in order. -/
inductive MainCall where
  | WSAStartup
  | LoadSettingsFromRegistry (ret : Bool)
  | EvtOpenChannelEnum (opened : Bool)
  | EvtSubscribe (channel : List Char)
  | EvtCloseChannels
  | EvtClose (h : Nat)
  | WSACleanup
  deriving DecidableEq, Repr

/-- How far the start of `RealMain` gets: it returns a code, or it reaches the wait of source
lines 255 to 263 with the subscriptions it holds. -/
inductive MainOutcome where
  | returned (code : Int)
  | waiting (failedSome : Bool) (subscriptions : List Nat)
  deriving DecidableEq, Repr

/-- Source lines 214 to 254: `RealMain` up to the wait for the stop event. -/
def RealMainStart (env : MainEnv) (g : Globals) : Globals × List MainCall × MainOutcome :=
  let loaded := LoadSettingsFromRegistry env.registry g
  let t := [MainCall.WSAStartup, MainCall.LoadSettingsFromRegistry loaded.1]
  if loaded.2.syslogIP = INADDR_NONE then (loaded.2, t, MainOutcome.returned (-1))
  else
    match env.channels with
    | none => (loaded.2, t ++ [MainCall.EvtOpenChannelEnum false], MainOutcome.returned 1)
    | some steps =>
      let st := subscribeLoop steps { failedSome := false, subscriptions := [], attempted := [] }
      (loaded.2,
        t ++ [MainCall.EvtOpenChannelEnum true] ++ st.attempted.map MainCall.EvtSubscribe
          ++ [MainCall.EvtCloseChannels],
        MainOutcome.waiting st.failedSome st.subscriptions)

/-- Source lines 264 to 269: `RealMain` after the wait has ended. -/
def RealMainFinish (subscriptions : List Nat) : List MainCall × Int :=
  (subscriptions.map MainCall.EvtClose ++ [MainCall.WSACleanup], 0)

/-- A channel of the enumeration for which both calls of `EvtNextChannelPath` behave as
documented: the sizing call reports an insufficient buffer and the second call succeeds. -/
def ChannelStep.enumerated (c : ChannelStep) : Prop :=
  c.probeRet = false ∧ c.probeErr = ERROR_INSUFFICIENT_BUFFER ∧ c.fetchRet = true

instance (c : ChannelStep) : Decidable c.enumerated := by
  unfold ChannelStep.enumerated
  infer_instance

/-! ## The service wrapper -/

/-- The value of `SERVICE_STOPPED` in winsvc.h. -/
def SERVICE_STOPPED : Nat := 1

/-- The value of `SERVICE_START_PENDING` in winsvc.h. -/
def SERVICE_START_PENDING : Nat := 2

/-- The value of `SERVICE_STOP_PENDING` in winsvc.h. -/
def SERVICE_STOP_PENDING : Nat := 3

/-- The value of `SERVICE_RUNNING` in winsvc.h. -/
def SERVICE_RUNNING : Nat := 4

/-- The value of `SERVICE_ACCEPT_STOP` in winsvc.h. -/
def SERVICE_ACCEPT_STOP : Nat := 1

/-- The value of `SERVICE_CONTROL_STOP` in winsvc.h. -/
def SERVICE_CONTROL_STOP : Nat := 1

/-- The statement the service thread executes next, from line 402 of `SvcMain` on (the
control handler is registered). -/
inductive SvcPc where
  /-- Line 402: `ReportSvcStatus(SERVICE_START_PENDING, ...)`. -/
  | line402
  /-- Line 432: `CreateEvent`. -/
  | line432
  /-- Line 440: `ReportSvcStatus(SERVICE_STOPPED, ...)` after `CreateEvent` failed. -/
  | line440
  /-- Line 446: `ReportSvcStatus(SERVICE_RUNNING, ...)`. -/
  | line446
  /-- Line 448: the call of `RealMain`, up to its wait. -/
  | line448
  /-- Line 257 within `RealMain`: `WaitForSingleObject(stopEvent, INFINITE)`. -/
  | line257
  /-- Lines 264 to 269 within `RealMain`: the subscriptions are closed and `RealMain` returns. -/
  | line264
  /-- Line 449: `ReportSvcStatus(SERVICE_STOPPED, ...)`. -/
  | line449
  /-- The thread has returned from `SvcMain`. -/
  | returned
  deriving DecidableEq, Repr

/-- The statement of `SvcCtrlHandler` the dispatcher thread executes next. -/
inductive CtlPc where
  /-- No control request is in flight or being handled. -/
  | idle
  /-- A stop request has been sent: it is in flight to the dispatcher thread, or the thread
  has entered `SvcCtrlHandler` and stands before line 508,
  `ReportSvcStatus(SERVICE_STOP_PENDING, ...)`. -/
  | line508
  /-- Line 512: `SetEvent(ghSvcStopEvent)`. -/
  | line512
  /-- Line 513: `ReportSvcStatus(gSvcStatus.dwCurrentState, ...)`. -/
  | line513
  /-- Line 515: `return`. -/
  | line515
  deriving DecidableEq, Repr

/-- The statement of `ReportSvcStatus` a thread inside it executes next. -/
inductive ReportPc where
  /-- Lines 473 to 475: the stores to `dwCurrentState`, `dwWin32ExitCode` and `dwWaitHint`. -/
  | line473
  /-- Lines 477 to 479: the store to `dwControlsAccepted`. -/
  | line477
  /-- Lines 481 to 484: the store to `dwCheckPoint`. -/
  | line481
  /-- Line 487: `SetServiceStatus(gSvcStatusHandle, &gSvcStatus)`. -/
  | line487
  deriving DecidableEq, Repr

/-- One activation of `ReportSvcStatus`: its parameter `dwCurrentState` and the statement it
executes next. The parameters `dwWin32ExitCode` and `dwWaitHint` are constants at every call;
they and the fields they are stored to (lines 474 and 475) are not tracked. -/
structure Frame where
  dwCurrentState : Nat
  pc : ReportPc
  deriving DecidableEq, Repr

/-- What can be observed of a run of the service, in order. -/
inductive SvcEvent where
  /-- The call `SetServiceStatus` of line 487, made within the call of `ReportSvcStatus` at
  source line `caller`, with the value of `gSvcStatus.dwCurrentState` that it hands over. -/
  | SetServiceStatus (caller : Nat) (dwCurrentState : Nat)
  /-- The service control manager sends `SERVICE_CONTROL_STOP`: the dispatcher thread is to
  enter `SvcCtrlHandler` with it. -/
  | StopRequested
  /-- The call `SetEvent(ghSvcStopEvent)` of line 512. -/
  | SetEvent
  /-- The call of `RealMain` at line 448. -/
  | RealMainCalled
  /-- A subscription handle stored by line 251. -/
  | Subscribed (hnd : Nat)
  /-- The call `EvtClose(hnd)` of line 265. -/
  | Closed (hnd : Nat)
  /-- The return of `RealMain` with a code. -/
  | RealMainReturned (code : Int)
  deriving DecidableEq, Repr

/-- The state of the service process: the two threads, each with its activation of
`ReportSvcStatus` if it is inside one, the globals of lines 274 to 276 and of lines 55 to 57,
the static counter of `ReportSvcStatus`, the subscriptions held by `RealMain`, the status the
service control manager received last, and the events observed so far. -/
structure Service where
  svc : SvcPc
  /-- The activation of `ReportSvcStatus` on the service thread. -/
  svcFrame : Option Frame
  ctl : CtlPc
  /-- The activation of `ReportSvcStatus` on the dispatcher thread. -/
  ctlFrame : Option Frame
  /-- The field `gSvcStatus.dwCurrentState`. -/
  dwCurrentState : Nat
  /-- The field `gSvcStatus.dwControlsAccepted`. -/
  dwControlsAccepted : Nat
  /-- The field `gSvcStatus.dwCheckPoint`. -/
  dwCheckPoint : Nat
  /-- The static `dwCheckPoint` of `ReportSvcStatus`. -/
  checkPointCounter : Nat
  /-- Tells whether the event `ghSvcStopEvent` is signalled. -/
  stopSignalled : Bool
  subscriptions : List Nat
  globals : Globals
  /-- The `dwCurrentState` the service control manager holds for the service. -/
  scmState : Nat
  /-- The `dwControlsAccepted` the service control manager holds for the service. -/
  scmAccepted : Nat
  log : List SvcEvent

/-- The state in which `SvcMain` reaches line 402: `gSvcStatus` is a zero-initialised global,
and the service control manager holds the status it gives a service it starts. -/
def Service.initial : Service :=
  { svc := SvcPc.line402, svcFrame := none, ctl := CtlPc.idle, ctlFrame := none,
    dwCurrentState := 0, dwControlsAccepted := 0, dwCheckPoint := 0, checkPointCounter := 1,
    stopSignalled := false, subscriptions := [], globals := Globals.initial,
    scmState := SERVICE_START_PENDING, scmAccepted := 0, log := [] }

/-- Source lines 465 to 488, one statement of the activation `f` entered from source line
`caller`: the state after the statement and the activation that remains, `none` after line
487. The globals are read when the statement runs: line 487 hands over `gSvcStatus` as it is
then, whichever thread stored to it last. The code does not look at what `SetServiceStatus`
returns; the call is taken to succeed, so that the service control manager holds what it was
handed last. The increment of the static counter at line 484 is one step; nothing that is
reported depends on the counter. -/
def ReportSvcStatus (caller : Nat) (f : Frame) (s : Service) : Service × Option Frame :=
  match f.pc with
  | ReportPc.line473 =>
    ({ s with dwCurrentState := f.dwCurrentState }, some { f with pc := ReportPc.line477 })
  | ReportPc.line477 =>
    ({ s with
        dwControlsAccepted :=
          if f.dwCurrentState = SERVICE_START_PENDING then 0 else SERVICE_ACCEPT_STOP },
      some { f with pc := ReportPc.line481 })
  | ReportPc.line481 =>
    if f.dwCurrentState = SERVICE_RUNNING ∨ f.dwCurrentState = SERVICE_STOPPED then
      ({ s with dwCheckPoint := 0 }, some { f with pc := ReportPc.line487 })
    else
      ({ s with
          dwCheckPoint := s.checkPointCounter
          checkPointCounter := (s.checkPointCounter + 1) % 2 ^ 32 },
        some { f with pc := ReportPc.line487 })
  | ReportPc.line487 =>
    ({ s with
        scmState := s.dwCurrentState
        scmAccepted := s.dwControlsAccepted
        log := s.log ++ [SvcEvent.SetServiceStatus caller s.dwCurrentState] },
      none)

/-- What the system answers to the service thread. -/
structure ServiceEnv where
  /-- Tells whether `CreateEvent` (line 432) returns a handle. -/
  eventCreated : Bool
  main : MainEnv

/-- One step of the service thread at a call `ReportSvcStatus(arg, ...)` of source line
`caller`: the thread enters the function, or it executes the next statement inside it; after
line 487 it stands before `next`. -/
def svcCall (caller arg : Nat) (next : SvcPc) (s : Service) : Service :=
  match s.svcFrame with
  | none => { s with svcFrame := some { dwCurrentState := arg, pc := ReportPc.line473 } }
  | some f =>
    match (ReportSvcStatus caller f s).2 with
    | some f1 => { (ReportSvcStatus caller f s).1 with svcFrame := some f1 }
    | none => { (ReportSvcStatus caller f s).1 with svcFrame := none, svc := next }

/-- One step of the dispatcher thread at a call `ReportSvcStatus(arg, ...)` of source line
`caller`, as `svcCall`. The argument is evaluated when the thread enters the function. -/
def ctlCall (caller arg : Nat) (next : CtlPc) (s : Service) : Service :=
  match s.ctlFrame with
  | none => { s with ctlFrame := some { dwCurrentState := arg, pc := ReportPc.line473 } }
  | some f =>
    match (ReportSvcStatus caller f s).2 with
    | some f1 => { (ReportSvcStatus caller f s).1 with ctlFrame := some f1 }
    | none => { (ReportSvcStatus caller f s).1 with ctlFrame := none, ctl := next }

/-- One step of the service thread, lines 402 to 449 with the body of `RealMain`; `none` when
the thread cannot proceed: it has returned, or it waits for an event that is not signalled.
`RealMain` shares nothing with the control handler but the stop event, which it reads at line
257; its statements before the wait are one step, and so are those after it. -/
def SvcMain (env : ServiceEnv) (s : Service) : Option Service :=
  match s.svc with
  | SvcPc.line402 => some (svcCall 402 SERVICE_START_PENDING SvcPc.line432 s)
  | SvcPc.line432 =>
    if env.eventCreated = false then some { s with svc := SvcPc.line440 }
    else some { s with svc := SvcPc.line446 }
  | SvcPc.line440 => some (svcCall 440 SERVICE_STOPPED SvcPc.returned s)
  | SvcPc.line446 => some (svcCall 446 SERVICE_RUNNING SvcPc.line448 s)
  | SvcPc.line448 =>
    match RealMainStart env.main s.globals with
    | (g, _, MainOutcome.returned code) =>
      some { s with
        svc := SvcPc.line449, globals := g
        log := s.log ++ [SvcEvent.RealMainCalled, SvcEvent.RealMainReturned code] }
    | (g, _, MainOutcome.waiting _ subscriptions) =>
      some { s with
        svc := SvcPc.line257, globals := g, subscriptions := subscriptions
        log := s.log ++ [SvcEvent.RealMainCalled] ++ subscriptions.map SvcEvent.Subscribed }
  | SvcPc.line257 =>
    if s.stopSignalled = true then some { s with svc := SvcPc.line264 } else none
  | SvcPc.line264 =>
    some { s with
      svc := SvcPc.line449, subscriptions := []
      log := s.log ++ s.subscriptions.map SvcEvent.Closed
        ++ [SvcEvent.RealMainReturned (RealMainFinish s.subscriptions).2] }
  | SvcPc.line449 => some (svcCall 449 SERVICE_STOPPED SvcPc.returned s)
  | SvcPc.returned => none

/-- Source lines 501 to 524, called with a control code: the `switch` of line 505. For
`SERVICE_CONTROL_STOP` the handler stands before line 508 afterwards; for every other code it
leaves the `switch` and returns. The call stores nothing, so a request in flight and a handler
that has not yet executed line 508 are the same state: whatever the service thread does after
the manager has sent the request, line 508 comes after it. -/
def SvcCtrlHandler (dwCtrl : Nat) (s : Service) : Service :=
  if dwCtrl = SERVICE_CONTROL_STOP then
    { s with ctl := CtlPc.line508, log := s.log ++ [SvcEvent.StopRequested] }
  else s

/-- One further step of `SvcCtrlHandler`, lines 508 to 515; `none` when no control request is
being handled. Line 513 reads `gSvcStatus.dwCurrentState` when it enters `ReportSvcStatus`;
the store of line 473 and the call of line 487 are later steps. -/
def SvcCtrlHandlerNext (s : Service) : Option Service :=
  match s.ctl with
  | CtlPc.idle => none
  | CtlPc.line508 => some (ctlCall 508 SERVICE_STOP_PENDING CtlPc.line512 s)
  | CtlPc.line512 =>
    some { s with ctl := CtlPc.line513, stopSignalled := true, log := s.log ++ [SvcEvent.SetEvent] }
  | CtlPc.line513 => some (ctlCall 513 s.dwCurrentState CtlPc.line515 s)
  | CtlPc.line515 => some { s with ctl := CtlPc.idle }

/-- What happens next in the service process. -/
inductive Action where
  /-- The service thread executes its next step. -/
  | service
  /-- The service control manager sends a control code, for the dispatcher thread to enter
  `SvcCtrlHandler` with it. -/
  | control (dwCtrl : Nat)
  /-- The dispatcher thread executes the next step of `SvcCtrlHandler`. -/
  | handler
  deriving DecidableEq, Repr

/-- The states in which the service control manager sends `dwCtrl`. The dispatcher thread
handles one control request at a time. The manager decides on the status it received last: it
sends a stop request only when that status accepts it (`SERVICE_ACCEPT_STOP`, lines 477 to
479) and is not `SERVICE_STOPPED`. What the service has stored in `gSvcStatus` since plays no
part. -/
def controlSent (dwCtrl : Nat) (s : Service) : Prop :=
  s.ctl = CtlPc.idle ∧
    (dwCtrl = SERVICE_CONTROL_STOP →
      s.scmAccepted = SERVICE_ACCEPT_STOP ∧ s.scmState ≠ SERVICE_STOPPED)

instance (dwCtrl : Nat) (s : Service) : Decidable (controlSent dwCtrl s) := by
  unfold controlSent
  infer_instance

/-- The step relation of the service process as a function: the two threads interleave step
by step; `none` when the action is not possible in the state. -/
def step (env : ServiceEnv) (a : Action) (s : Service) : Option Service :=
  match a with
  | Action.service => SvcMain env s
  | Action.control dwCtrl => if controlSent dwCtrl s then some (SvcCtrlHandler dwCtrl s) else none
  | Action.handler => SvcCtrlHandlerNext s

/-- A run: the actions taken one after the other from a state. -/
def run (env : ServiceEnv) : List Action → Service → Option Service
  | [], s => some s
  | a :: rest, s => (step env a s).bind (run env rest)

/-- The statuses reported in a log, in order. -/
def reported : List SvcEvent → List Nat
  | [] => []
  | SvcEvent.SetServiceStatus _ st :: t => st :: reported t
  | _ :: t => reported t

/-- Claim wording: the place of a status in the order StartPending, Running, StopPending,
Stopped. -/
def statusRank (st : Nat) : Nat :=
  if st = SERVICE_START_PENDING then 0
  else if st = SERVICE_RUNNING then 1
  else if st = SERVICE_STOP_PENDING then 2
  else 3

/-- The place of a status in the order StartPending, Running, stopping, where StopPending and
Stopped are both stopping. -/
def lifecyclePhase (st : Nat) : Nat :=
  if st = SERVICE_START_PENDING then 0
  else if st = SERVICE_RUNNING then 1
  else 2

/-- The status is StopPending or Stopped. -/
def stopping (st : Nat) : Prop :=
  st = SERVICE_STOP_PENDING ∨ st = SERVICE_STOPPED

instance (st : Nat) : Decidable (stopping st) := by
  unfold stopping
  infer_instance

/-- Tells whether a stop request is being handled after the event `e`, given whether one was
before: from the sending of a stop request to the report that line 513 makes for it. -/
def handlingAfter (before : Bool) (e : SvcEvent) : Bool :=
  match e with
  | SvcEvent.StopRequested => true
  | SvcEvent.SetServiceStatus caller _ => if caller = 513 then false else before
  | _ => before

/-- Tells whether a stop request is being handled at the end of a log. -/
def handling (l : List SvcEvent) : Bool :=
  l.foldl handlingAfter false

/-- The status the control handler has reported at line 508 for the stop request it handles,
after the event `e`, given the same before. -/
def handlerReportAfter (before : Option Nat) (e : SvcEvent) : Option Nat :=
  match e with
  | SvcEvent.StopRequested => none
  | SvcEvent.SetServiceStatus caller st => if caller = 508 then some st else before
  | _ => before

/-- The status the control handler has reported at line 508 since the last stop request of a
log, `none` when it has not made that report. -/
def handlerReport (l : List SvcEvent) : Option Nat :=
  l.foldl handlerReportAfter none

/-- Claim wording, "every live subscription has been closed" and "`RealMain` has returned",
for the events observed up to some point: if `RealMain` was called it has returned, and every
subscription made has been closed. -/
def tornDown (l : List SvcEvent) : Prop :=
  (SvcEvent.RealMainCalled ∈ l → ∃ code, SvcEvent.RealMainReturned code ∈ l)
    ∧ ∀ hnd, SvcEvent.Subscribed hnd ∈ l → SvcEvent.Closed hnd ∈ l

/-- Claim wording: one of the four statuses StartPending, Running, StopPending, Stopped. -/
def isLifecycleStatus (st : Nat) : Prop :=
  st = SERVICE_START_PENDING ∨ st = SERVICE_RUNNING ∨ st = SERVICE_STOP_PENDING
    ∨ st = SERVICE_STOPPED

/-- No event of `RealMain` has been observed yet. -/
def noMain (l : List SvcEvent) : Prop :=
  SvcEvent.RealMainCalled ∉ l ∧ ∀ hnd, SvcEvent.Subscribed hnd ∉ l

/-- The calls of `ReportSvcStatus` on the service thread: the statement, its source line,
the argument, and the statement after the call. -/
def svcSite (pc : SvcPc) (caller arg : Nat) (next : SvcPc) : Prop :=
  (pc = SvcPc.line402 ∧ caller = 402 ∧ arg = SERVICE_START_PENDING ∧ next = SvcPc.line432)
    ∨ (pc = SvcPc.line440 ∧ caller = 440 ∧ arg = SERVICE_STOPPED ∧ next = SvcPc.returned)
    ∨ (pc = SvcPc.line446 ∧ caller = 446 ∧ arg = SERVICE_RUNNING ∧ next = SvcPc.line448)
    ∨ (pc = SvcPc.line449 ∧ caller = 449 ∧ arg = SERVICE_STOPPED ∧ next = SvcPc.returned)

/-- The calls of `ReportSvcStatus` on the dispatcher thread: the statement, its source line,
and the statement after the call. -/
def ctlSite (pc : CtlPc) (caller : Nat) (next : CtlPc) : Prop :=
  (pc = CtlPc.line508 ∧ caller = 508 ∧ next = CtlPc.line512)
    ∨ (pc = CtlPc.line513 ∧ caller = 513 ∧ next = CtlPc.line515)

/-- The steps of the service process as a relation, one rule for each statement of each
thread: `Step env s s1` holds when `s1` is `s` after the statement. It is the relation that
the function `step` computes (theorem `step_sound`); the invariants are proved rule by rule. -/
inductive Step (env : ServiceEnv) (s : Service) : Service → Prop where
  /-- The service thread enters `ReportSvcStatus`. -/
  | svcEnter (caller arg : Nat) (next : SvcPc) (hsite : svcSite s.svc caller arg next)
      (hf : s.svcFrame = none) :
      Step env s { s with svcFrame := some { dwCurrentState := arg, pc := ReportPc.line473 } }
  /-- Line 473 on the service thread. -/
  | svc473 (a : Nat) (hf : s.svcFrame = some { dwCurrentState := a, pc := ReportPc.line473 }) :
      Step env s { s with
        dwCurrentState := a
        svcFrame := some { dwCurrentState := a, pc := ReportPc.line477 } }
  /-- Lines 477 to 479 on the service thread. -/
  | svc477 (a : Nat) (hf : s.svcFrame = some { dwCurrentState := a, pc := ReportPc.line477 }) :
      Step env s { s with
        dwControlsAccepted := if a = SERVICE_START_PENDING then 0 else SERVICE_ACCEPT_STOP
        svcFrame := some { dwCurrentState := a, pc := ReportPc.line481 } }
  /-- Lines 481 to 484 on the service thread. -/
  | svc481 (a x y : Nat)
      (hf : s.svcFrame = some { dwCurrentState := a, pc := ReportPc.line481 }) :
      Step env s { s with
        dwCheckPoint := x
        checkPointCounter := y
        svcFrame := some { dwCurrentState := a, pc := ReportPc.line487 } }
  /-- Line 487 on the service thread, and the return to the caller. -/
  | svc487 (caller arg a : Nat) (next : SvcPc) (hsite : svcSite s.svc caller arg next)
      (hf : s.svcFrame = some { dwCurrentState := a, pc := ReportPc.line487 }) :
      Step env s { s with
        scmState := s.dwCurrentState
        scmAccepted := s.dwControlsAccepted
        log := s.log ++ [SvcEvent.SetServiceStatus caller s.dwCurrentState]
        svcFrame := none
        svc := next }
  /-- Line 432. -/
  | createEvent (next : SvcPc) (hpc : s.svc = SvcPc.line432)
      (hnext : next = SvcPc.line440 ∨ next = SvcPc.line446) :
      Step env s { s with svc := next }
  /-- Line 448 when `RealMain` returns before its wait. -/
  | mainReturned (g : Globals) (code : Int) (hpc : s.svc = SvcPc.line448) :
      Step env s { s with
        svc := SvcPc.line449, globals := g
        log := s.log ++ [SvcEvent.RealMainCalled, SvcEvent.RealMainReturned code] }
  /-- Line 448 when `RealMain` reaches its wait. -/
  | mainWaiting (g : Globals) (subscriptions : List Nat) (hpc : s.svc = SvcPc.line448) :
      Step env s { s with
        svc := SvcPc.line257, globals := g, subscriptions := subscriptions
        log := s.log ++ [SvcEvent.RealMainCalled] ++ subscriptions.map SvcEvent.Subscribed }
  /-- Line 257 when the stop event is signalled. -/
  | woken (hpc : s.svc = SvcPc.line257) :
      Step env s { s with svc := SvcPc.line264 }
  /-- Lines 264 to 269. -/
  | mainFinished (code : Int) (hpc : s.svc = SvcPc.line264) :
      Step env s { s with
        svc := SvcPc.line449, subscriptions := []
        log := s.log ++ s.subscriptions.map SvcEvent.Closed ++ [SvcEvent.RealMainReturned code] }
  /-- The service control manager sends a stop request. -/
  | stopRequested (hc : controlSent SERVICE_CONTROL_STOP s) :
      Step env s { s with ctl := CtlPc.line508, log := s.log ++ [SvcEvent.StopRequested] }
  /-- The dispatcher thread enters `ReportSvcStatus` at line 508. -/
  | ctlEnter508 (hpc : s.ctl = CtlPc.line508) (hf : s.ctlFrame = none) :
      Step env s { s with
        ctlFrame := some { dwCurrentState := SERVICE_STOP_PENDING, pc := ReportPc.line473 } }
  /-- The dispatcher thread reads `gSvcStatus.dwCurrentState` and enters `ReportSvcStatus` at
  line 513. -/
  | ctlEnter513 (hpc : s.ctl = CtlPc.line513) (hf : s.ctlFrame = none) :
      Step env s { s with
        ctlFrame := some { dwCurrentState := s.dwCurrentState, pc := ReportPc.line473 } }
  /-- Line 473 on the dispatcher thread. -/
  | ctl473 (a : Nat) (hf : s.ctlFrame = some { dwCurrentState := a, pc := ReportPc.line473 }) :
      Step env s { s with
        dwCurrentState := a
        ctlFrame := some { dwCurrentState := a, pc := ReportPc.line477 } }
  /-- Lines 477 to 479 on the dispatcher thread. -/
  | ctl477 (a : Nat) (hf : s.ctlFrame = some { dwCurrentState := a, pc := ReportPc.line477 }) :
      Step env s { s with
        dwControlsAccepted := if a = SERVICE_START_PENDING then 0 else SERVICE_ACCEPT_STOP
        ctlFrame := some { dwCurrentState := a, pc := ReportPc.line481 } }
  /-- Lines 481 to 484 on the dispatcher thread. -/
  | ctl481 (a x y : Nat)
      (hf : s.ctlFrame = some { dwCurrentState := a, pc := ReportPc.line481 }) :
      Step env s { s with
        dwCheckPoint := x
        checkPointCounter := y
        ctlFrame := some { dwCurrentState := a, pc := ReportPc.line487 } }
  /-- Line 487 on the dispatcher thread, and the return to the caller. -/
  | ctl487 (caller a : Nat) (next : CtlPc) (hsite : ctlSite s.ctl caller next)
      (hf : s.ctlFrame = some { dwCurrentState := a, pc := ReportPc.line487 }) :
      Step env s { s with
        scmState := s.dwCurrentState
        scmAccepted := s.dwControlsAccepted
        log := s.log ++ [SvcEvent.SetServiceStatus caller s.dwCurrentState]
        ctlFrame := none
        ctl := next }
  /-- Line 512. -/
  | setEvent (hpc : s.ctl = CtlPc.line512) :
      Step env s { s with
        ctl := CtlPc.line513, stopSignalled := true, log := s.log ++ [SvcEvent.SetEvent] }
  /-- Line 515. -/
  | handlerReturn (hpc : s.ctl = CtlPc.line515) :
      Step env s { s with ctl := CtlPc.idle }

/-- The service thread stands before the call of `RealMain` and before line 446 has made its
report. -/
def SvcPc.early (pc : SvcPc) : Prop :=
  pc = SvcPc.line402 ∨ pc = SvcPc.line432 ∨ pc = SvcPc.line440 ∨ pc = SvcPc.line446

/-- The service thread is inside `RealMain` or about to call it. -/
def SvcPc.inMain (pc : SvcPc) : Prop :=
  pc = SvcPc.line448 ∨ pc = SvcPc.line257 ∨ pc = SvcPc.line264

/-- The activation, if there is one, has executed line 473. -/
def past473 (frame : Option Frame) : Prop :=
  ∃ f, frame = some f ∧ f.pc ≠ ReportPc.line473

/-- The invariant of the reachable states of the service process, the part about the two
threads and `gSvcStatus`. -/
@[mk_iff]
structure Ctrl (s : Service) : Prop where
  /-- The service thread is inside `ReportSvcStatus` only at its four calls, with the
  argument of the call. -/
  svcFrame : ∀ f, s.svcFrame = some f →
    (s.svc = SvcPc.line402 ∧ f.dwCurrentState = SERVICE_START_PENDING)
      ∨ (s.svc = SvcPc.line440 ∧ f.dwCurrentState = SERVICE_STOPPED)
      ∨ (s.svc = SvcPc.line446 ∧ f.dwCurrentState = SERVICE_RUNNING)
      ∨ (s.svc = SvcPc.line449 ∧ f.dwCurrentState = SERVICE_STOPPED)
  /-- The dispatcher thread is inside `ReportSvcStatus` only at its two calls; the argument
  read by line 513 is StopPending or Stopped. -/
  ctlFrame : ∀ f, s.ctlFrame = some f →
    (s.ctl = CtlPc.line508 ∧ f.dwCurrentState = SERVICE_STOP_PENDING)
      ∨ (s.ctl = CtlPc.line513 ∧ stopping f.dwCurrentState)
  /-- The argument read by line 513 is Stopped only after `RealMain`. -/
  ctlArg : s.svc.inMain → ∀ f, s.ctlFrame = some f → f.dwCurrentState ≠ SERVICE_STOPPED
  /-- No stop request arrives before line 446 has made its report. -/
  early : s.svc.early → s.ctl = CtlPc.idle ∧ s.ctlFrame = none ∧ s.scmAccepted = 0
  at402 : s.svc = SvcPc.line402 →
    s.dwControlsAccepted = 0 ∧ (past473 s.svcFrame → s.dwCurrentState = SERVICE_START_PENDING)
  at432 : s.svc = SvcPc.line432 → s.dwCurrentState = SERVICE_START_PENDING
  at440 : s.svc = SvcPc.line440 →
    (past473 s.svcFrame → s.dwCurrentState = SERVICE_STOPPED)
      ∧ (¬ past473 s.svcFrame → s.dwCurrentState = SERVICE_START_PENDING)
  at446 : s.svc = SvcPc.line446 →
    (past473 s.svcFrame → s.dwCurrentState = SERVICE_RUNNING)
      ∧ (¬ past473 s.svcFrame → s.dwCurrentState = SERVICE_START_PENDING)
  late : ¬ s.svc.early → s.dwCurrentState = SERVICE_RUNNING ∨ stopping s.dwCurrentState
  /-- While `gSvcStatus.dwCurrentState` is Running, neither the handler nor line 449 has
  stored to it. -/
  running : ¬ s.svc.early → s.dwCurrentState = SERVICE_RUNNING →
    (s.ctl = CtlPc.idle ∨ (s.ctl = CtlPc.line508 ∧ ¬ past473 s.ctlFrame))
      ∧ (s.svc.inMain ∨ (s.svc = SvcPc.line449 ∧ ¬ past473 s.svcFrame))
  inMain : s.svc.inMain → s.dwCurrentState ≠ SERVICE_STOPPED

/-- The invariant, the part about the order of the reports. -/
structure OrderInv (s : Service) : Prop where
  at402 : s.svc = SvcPc.line402 → s.log = []
  lifecycle : ∀ st ∈ reported s.log, isLifecycleStatus st
  sorted : (reported s.log).Pairwise (fun a b => lifecyclePhase a ≤ lifecyclePhase b)
  current : ∀ st ∈ reported s.log, lifecyclePhase st ≤ lifecyclePhase s.dwCurrentState

/-- The control handler has made its report of line 508 for the stop request it handles, and
the report carried StopPending, or it carried Stopped and `RealMain` had returned. -/
def stopReported (l : List SvcEvent) : Prop :=
  ∃ st, handlerReport l = some st
    ∧ (st = SERVICE_STOP_PENDING
        ∨ (st = SERVICE_STOPPED ∧ ∃ code, SvcEvent.RealMainReturned code ∈ l))

/-- The invariant, the part about the control handler. -/
structure HandlerInv (s : Service) : Prop where
  handling : handling s.log = true ↔
    (s.ctl = CtlPc.line508 ∨ s.ctl = CtlPc.line512 ∨ s.ctl = CtlPc.line513)
  at512 : s.ctl = CtlPc.line512 → stopReported s.log
  setEvent : ∀ l1 l2, s.log = l1 ++ SvcEvent.SetEvent :: l2 → stopReported l1

/-- The invariant, the part about `RealMain` and its subscriptions. -/
structure TeardownInv (s : Service) : Prop where
  beforeMain : s.svc.early ∨ s.svc = SvcPc.line448 → noMain s.log
  waiting : s.svc = SvcPc.line257 ∨ s.svc = SvcPc.line264 →
    ∀ hnd, SvcEvent.Subscribed hnd ∈ s.log → hnd ∈ s.subscriptions
  afterMain : s.svc = SvcPc.line449 ∨ s.svc = SvcPc.returned → tornDown s.log
  stopped : ∀ l1 caller l2,
    s.log = l1 ++ SvcEvent.SetServiceStatus caller SERVICE_STOPPED :: l2 → tornDown l1

/-- The service thread has returned, no stop request is being handled, and the service
control manager holds Stopped: no statement remains that reports or signals. -/
def Finished (s : Service) : Prop :=
  s.svc = SvcPc.returned ∧ s.svcFrame = none ∧ s.ctlFrame = none
    ∧ (s.ctl = CtlPc.idle ∨ s.ctl = CtlPc.line515) ∧ s.scmState = SERVICE_STOPPED

/-- The invariant, the part about the return of `RealMain`: line 449 comes after it, and a
service thread that has returned without it has left a finished process. -/
structure MainInv (s : Service) : Prop where
  at449 : s.svc = SvcPc.line449 → ∃ code, SvcEvent.RealMainReturned code ∈ s.log
  returned : s.svc = SvcPc.returned →
    (∃ code, SvcEvent.RealMainReturned code ∈ s.log) ∨ Finished s

/-- The invariant, the part about the end: after a Stopped report made while no stop request
was being handled, nothing has been observed and the process is finished. -/
def FinalInv (s : Service) : Prop :=
  ∀ l1 caller l2, s.log = l1 ++ SvcEvent.SetServiceStatus caller SERVICE_STOPPED :: l2 →
    handling l1 = false → l2 = [] ∧ Finished s

/-- The invariant of the reachable states of the service process. -/
structure Inv (s : Service) : Prop where
  ctrl : Ctrl s
  order : OrderInv s
  main : MainInv s
  handler : HandlerInv s
  teardown : TeardownInv s
  final : FinalInv s

/-! ## Conditions and reference formats used in the statements -/

/-- The "SyslogHost" value is absent, or its resolution yields no IPv4 address. -/
def noDestination (env : Registry) : Prop :=
  env.SyslogHost = none ∨
    ∃ host, env.SyslogHost = some host ∧
      (env.GetAddrInfoEx host = none ∨
        ∃ res, env.GetAddrInfoEx host = some res ∧ ∀ item ∈ res, item.ai_family ≠ AF_INET)

/-- The event is rendered successfully: both calls of `EvtRender` and both calls of
`EvtFormatMessage` answer as the callback expects, the property array reaches past the user-id
slot, and the five system properties carry values of the expected types. -/
structure Rendered (env : EventEnv) (providerName : List Char) (fileTime pid : Nat)
    (computerName : List Char) (eventID : Nat) : Prop where
  probe : env.probeRet = false
  probeErr : env.probeErr = ERROR_INSUFFICIENT_BUFFER
  render : env.renderRet = true
  count : EvtSystemUserID < env.properties.length
  provider : env.properties[EvtSystemProviderName]? = some (EVT_VARIANT.String providerName)
  time : env.properties[EvtSystemTimeCreated]? = some (EVT_VARIANT.FileTime fileTime)
  process : env.properties[EvtSystemProcessID]? = some (EVT_VARIANT.UInt32 pid)
  pidBound : pid < 2 ^ 32
  computer : env.properties[EvtSystemComputer]? = some (EVT_VARIANT.String computerName)
  event : env.properties[EvtSystemEventID]? = some (EVT_VARIANT.UInt16 eventID)
  eventBound : eventID < 2 ^ 16
  formatProbe : env.formatProbeRet = false
  formatProbeErr : env.formatProbeErr = ERROR_INSUFFICIENT_BUFFER
  format : env.formatRet = true

/-- Claim wording, "the text fields emitted unchanged": `%S` writes every character of the
text as the one byte of the same value. -/
def unchangedByS (wctomb : Char → Option (List Char)) (text : List Char) : Prop :=
  ∀ c ∈ text, wctomb c = some [c]

instance (wctomb : Char → Option (List Char)) (text : List Char) :
    Decidable (unchangedByS wctomb text) := by
  unfold unchangedByS
  infer_instance

/-- Claim wording: the decimal representation of a number. -/
def decimal (n : Nat) : List Char :=
  (Nat.repr n).toList

/-- Claim wording: a number in decimal, zero-padded to `width` digits. -/
def zeroPadded (width : Nat) (n : Nat) : List Char :=
  List.leftpad width '0' (decimal n)

/-- Claim wording: the timestamp `YYYY-MM-DDTHH:MM:SS.mmmZ`. -/
def timestamp (t : SYSTEMTIME) : List Char :=
  zeroPadded 4 t.wYear ++ "-".toList ++ zeroPadded 2 t.wMonth ++ "-".toList
    ++ zeroPadded 2 t.wDay ++ "T".toList ++ zeroPadded 2 t.wHour ++ ":".toList
    ++ zeroPadded 2 t.wMinute ++ ":".toList ++ zeroPadded 2 t.wSecond ++ ".".toList
    ++ zeroPadded 3 t.wMilliseconds ++ "Z".toList

/-- Claim wording: the line `<3>1 <timestamp> <computer> <provider> <eventId> <processId> -
<message>`, the fields separated by one space and the text fields unchanged. -/
def syslogLine (t : SYSTEMTIME) (computer provider : List Char) (eventId processId : Nat)
    (message : List Char) : List Char :=
  "<3>1".toList ++ " ".toList ++ timestamp t ++ " ".toList ++ computer ++ " ".toList
    ++ provider ++ " ".toList ++ decimal eventId ++ " ".toList ++ decimal processId
    ++ " ".toList ++ "-".toList ++ " ".toList ++ message

/-- Claim wording: the space-separated fields of a line that stand before its free-text
message, the message being the last `message.length` characters after a separating space. -/
def headerFields (line message : List Char) : List (List Char) :=
  (line.take (line.length - (message.length + 1))).splitOn ' '

/-- The fields that the format string of line 185 puts before the message: the priority
and version, the timestamp, the computer name, the provider name, the event id, the process id
and the hyphen. -/
def lineFields (t : SYSTEMTIME) (computer provider : List Char) (eventID pid : Nat) :
    List (List Char) :=
  [['<', '3', '>', '1'],
   fmtU 4 t.wYear ++ ['-'] ++ fmtU 2 t.wMonth ++ ['-'] ++ fmtU 2 t.wDay
      ++ ['T'] ++ fmtU 2 t.wHour ++ [':'] ++ fmtU 2 t.wMinute
      ++ [':'] ++ fmtU 2 t.wSecond ++ ['.'] ++ fmtU 3 t.wMilliseconds ++ ['Z'],
   computer, provider, fmtD (toInt32 eventID), fmtD (toInt32 pid), ['-']]

/-! ## Concrete scenarios -/

/-- A registry in which "SyslogHost" resolves to 10.0.0.5 and "SyslogPort" holds `port`. -/
def registryWithPort (port : List Char) : Registry :=
  { keyOpened := true
    SyslogHost := some "syslog.example.com".toList
    SyslogPort := some port
    GetAddrInfoEx := fun _ => some [{ ai_family := 23, S_addr := 0 },
                                    { ai_family := AF_INET, S_addr := 0x0500000A }] }

/-- A registry whose "SyslogHost" is a name that does not resolve. -/
def registryBadHost : Registry :=
  { keyOpened := true
    SyslogHost := some "bad.invalid".toList
    SyslogPort := some "514".toList
    GetAddrInfoEx := fun _ => none }

/-- Twenty channels: the subscriptions to channels 3, 7 and 11 fail with
`ERROR_NOT_SUPPORTED`, the one to channel 15 fails with `ERROR_ACCESS_DENIED` (5), and the
others succeed with handle `100 + i`. -/
def twentyChannels : List ChannelStep :=
  (List.range 20).map fun i =>
    { probeRet := false, probeErr := ERROR_INSUFFICIENT_BUFFER, fetchRet := true
      name := Nat.toDigits 10 i
      hnd := if i = 3 ∨ i = 7 ∨ i = 11 ∨ i = 15 then 0 else 100 + i
      err := if i = 15 then 5 else if i = 3 ∨ i = 7 ∨ i = 11 then ERROR_NOT_SUPPORTED else 0 }

/-- The time 2024-03-01 12:00:00.500 (a Friday) as a `SYSTEMTIME`. -/
def march1st : SYSTEMTIME :=
  { wYear := 2024, wMonth := 3, wDayOfWeek := 5, wDay := 1, wHour := 12, wMinute := 0,
    wSecond := 0, wMilliseconds := 500 }

/-- The eighteen system properties of an event of `provider` on `computer` with the given
event id, process id and creation time; the other slots are left `Null`. -/
def systemProperties (provider computer : List Char) (eventID pid fileTime : EVT_VARIANT) :
    List EVT_VARIANT :=
  [EVT_VARIANT.String provider, EVT_VARIANT.Null, eventID, EVT_VARIANT.Null, EVT_VARIANT.Null,
   EVT_VARIANT.Null, EVT_VARIANT.Null, EVT_VARIANT.Null, fileTime, EVT_VARIANT.Null,
   EVT_VARIANT.Null, EVT_VARIANT.Null, pid, EVT_VARIANT.Null, EVT_VARIANT.Null,
   EVT_VARIANT.String computer, EVT_VARIANT.Null, EVT_VARIANT.Null]

/-- The calendar reading of a file time, as `FileTimeToSystemTime` delivers it for a valid
input: `fileTime` counts intervals of 100 ns since 1601-01-01 00:00 UTC, a Monday. -/
def utcSystemTime (fileTime : Nat) : SYSTEMTIME :=
  let millis := fileTime / 10000
  let seconds := millis / 1000
  let days := seconds / 86400
  let z := days + 584694
  let era := z / 146097
  let doe := z % 146097
  let yoe := (doe - doe / 1460 + doe / 36524 - doe / 146096) / 365
  let doy := doe - (365 * yoe + yoe / 4 - yoe / 100)
  let mp := (5 * doy + 2) / 153
  let month := if mp < 10 then mp + 3 else mp - 9
  { wYear := if month ≤ 2 then yoe + era * 400 + 1 else yoe + era * 400
    wMonth := month
    wDayOfWeek := (days + 1) % 7
    wDay := doy - (153 * mp + 2) / 5 + 1
    wHour := seconds / 3600 % 24
    wMinute := seconds / 60 % 60
    wSecond := seconds % 60
    wMilliseconds := millis % 1000 }

/-- The conversion of `%S` in a process that never calls `setlocale`: an ASCII character is
written as it is, a character above 255 cannot be converted. The characters from 128 to 255, on
which the C runtimes differ, are taken as not convertible either. -/
def asciiOnly (c : Char) : Option (List Char) :=
  if c.toNat < 128 then some [c] else none

/-- An event for which every call succeeds, with the given properties and message, in a
process with the conversion `asciiOnly` where a failed `snprintf` leaves in `msg` all it has
written. -/
def eventWith (properties : List EVT_VARIANT) (message : List Char) : EventEnv :=
  { renderCtx := 7, probeRet := false, probeErr := ERROR_INSUFFICIENT_BUFFER, renderRet := true
    properties := properties
    FileTimeToSystemTime := utcSystemTime
    metadata := 8, formatProbeRet := false, formatProbeErr := ERROR_INSUFFICIENT_BUFFER
    formatRet := true, formatBuffer := message, socket := 9
    wctomb := asciiOnly, keptOnError := 2047 }

/-- The event of the scenario: provider "Kernel-General", computer "HOST1", event id 16, the
given process id, message "Process 1234 terminated", created at file time 133537680005000000,
which is 2024-03-01 12:00:00.500 UTC. -/
def kernelGeneralEvent (pid : Nat) : EventEnv :=
  eventWith
    (systemProperties "Kernel-General".toList "HOST1".toList (EVT_VARIANT.UInt16 16)
      (EVT_VARIANT.UInt32 pid) (EVT_VARIANT.FileTime 133537680005000000))
    "Process 1234 terminated".toList

/-- An event of the provider "Service Control Manager", whose name contains spaces. -/
def serviceControlManagerEvent : EventEnv :=
  eventWith
    (systemProperties "Service Control Manager".toList "HOST1".toList (EVT_VARIANT.UInt16 7036)
      (EVT_VARIANT.UInt32 612) (EVT_VARIANT.FileTime 133537680005000000))
    "The service entered the running state.".toList

/-- An event without a process id: slot `EvtSystemProcessID` is `Null`. -/
def eventWithoutProcessID : EventEnv :=
  eventWith
    (systemProperties "Kernel-General".toList "HOST1".toList (EVT_VARIANT.UInt16 16)
      EVT_VARIANT.Null (EVT_VARIANT.FileTime 133537680005000000))
    "Process 1234 terminated".toList

/-- The event of the scenario with a message in Cyrillic letters. -/
def cyrillicMessageEvent : EventEnv :=
  eventWith
    (systemProperties "Kernel-General".toList "HOST1".toList (EVT_VARIANT.UInt16 16)
      (EVT_VARIANT.UInt32 1234) (EVT_VARIANT.FileTime 133537680005000000))
    "Процесс 1234 завершён".toList

/-- The event of the scenario on a computer whose name is in Cyrillic letters. -/
def cyrillicComputerEvent : EventEnv :=
  eventWith
    (systemProperties "Kernel-General".toList "СЕРВЕР1".toList (EVT_VARIANT.UInt16 16)
      (EVT_VARIANT.UInt32 1234) (EVT_VARIANT.FileTime 133537680005000000))
    "Process 1234 terminated".toList

/-- The event of the scenario with a message of 3000 characters. -/
def longMessageEvent : EventEnv :=
  eventWith
    (systemProperties "Kernel-General".toList "HOST1".toList (EVT_VARIANT.UInt16 16)
      (EVT_VARIANT.UInt32 1234) (EVT_VARIANT.FileTime 133537680005000000))
    (List.replicate 3000 'x')

/-- A service start in which the event is created, the host resolves and twenty channels are
enumerated. -/
def managedEnv : ServiceEnv :=
  { eventCreated := true
    main := { registry := registryWithPort "5140".toList, channels := some twentyChannels } }

/-- The actions `a` taken `n` times. -/
def times (n : Nat) (a : Action) : List Action :=
  List.replicate n a

/-- A managed run: start, one stop request handled to its end, shutdown. The service thread
takes 12 steps to reach the wait of line 257, the handler 12 steps from line 508 to its return,
the service thread 7 steps from the wait to its return. -/
def managedRun : List Action :=
  times 12 Action.service ++ [Action.control SERVICE_CONTROL_STOP] ++ times 12 Action.handler
    ++ times 7 Action.service

/-- A managed run in which the handler is inside line 513 while the service thread shuts down:
the handler has read StopPending as the argument of line 513 when the service thread reports
Stopped, and it reports its argument afterwards. -/
def racingRun : List Action :=
  times 12 Action.service ++ [Action.control SERVICE_CONTROL_STOP] ++ times 7 Action.handler
    ++ times 7 Action.service ++ times 5 Action.handler

/-- A run in which `RealMain` returns at once and a stop request is sent before the service
thread executes line 449: the request is in flight while the service thread reports Stopped
and returns, and the handler makes its two reports afterwards. -/
def inFlightRun : List Action :=
  times 12 Action.service ++ [Action.control SERVICE_CONTROL_STOP] ++ times 5 Action.service
    ++ times 12 Action.handler

/-- A service start in which `CreateEvent` fails. -/
def noEventEnv : ServiceEnv :=
  { eventCreated := false, main := managedEnv.main }

/-- A service start in which the host does not resolve: `RealMain` returns at line 221. -/
def badHostEnv : ServiceEnv :=
  { eventCreated := true, main := { registry := registryBadHost, channels := some [] } }

/-- A run in which `RealMain` returns at once and a stop request arrives while the service
thread is inside line 449: the service thread has stored Stopped when the handler makes the
call of line 487 for line 508. -/
def lateStopRun : List Action :=
  times 13 Action.service ++ [Action.control SERVICE_CONTROL_STOP] ++ times 2 Action.handler
    ++ times 2 Action.service ++ times 4 Action.handler

/-! ## Theorems -/

theorem ntohs_htons (x : Nat) (h : x < 65536) : ntohs (htons x) = x := by
  unfold ntohs htons
  have hb : x / 256 % 256 = x / 256 := Nat.mod_eq_of_lt (by omega)
  rw [hb]
  have h1 : (x % 256 * 256 + x / 256) % 256 = x / 256 := by omega
  have h2 : (x % 256 * 256 + x / 256) / 256 = x % 256 := by omega
  rw [h1, h2]
  omega

theorem toInt32_of_lt (v : Nat) (h : v < 2 ^ 31) : toInt32 (v : Int) = v := by
  unfold toInt32
  have h1 : ((v : Int)) % 2 ^ 32 = v := by
    apply Int.emod_eq_of_lt <;> omega
  rw [h1]
  have : ((v : Int)) < 2 ^ 31 := by exact_mod_cast h
  rw [if_pos this]

theorem toUShort_of_lt (v : Nat) (h : v < 65536) : toUShort (v : Int) = v := by
  unfold toUShort
  have h1 : ((v : Int)) % 2 ^ 16 = v := by
    apply Int.emod_eq_of_lt <;> omega
  rw [h1]; simp

/-- The port that `LoadSettingsFromRegistry` stores when the key opens and "SyslogPort" is
read as `P`. -/
theorem loaded_syslogPort (env : Registry) (g : Globals) (P : List Char)
    (hk : env.keyOpened = true) (hp : env.SyslogPort = some P) :
    (LoadSettingsFromRegistry env g).2.syslogPort =
      if toInt32 (wcstoul P) = 0 ∨ toInt32 (wcstoul P) > 65535
      then htons (toUShort PORT_NUMBER_DEFAULT) else htons (toUShort (toInt32 (wcstoul P))) := by
  simp only [LoadSettingsFromRegistry, hk, loadPort, hp]
  rw [if_neg (by simp)]
  split <;> rfl

theorem destPort_of_small (env : Registry) (g : Globals) (P : List Char)
    (hk : env.keyOpened = true) (hp : env.SyslogPort = some P) (hv : wcstoul P < 2 ^ 31) :
    destPort (LoadSettingsFromRegistry env g).2 =
      if wcstoul P = 0 ∨ 65535 < wcstoul P then 514 else wcstoul P := by
  unfold destPort
  rw [loaded_syslogPort env g P hk hp, toInt32_of_lt _ hv]
  have hd : toUShort (PORT_NUMBER_DEFAULT : Int) = 514 := by
    rw [toUShort_of_lt _ (by decide)]; rfl
  by_cases h : wcstoul P = 0 ∨ 65535 < wcstoul P
  · have h' : ((wcstoul P : Int) = 0 ∨ (wcstoul P : Int) > 65535) := by
      rcases h with h | h
      · left; exact_mod_cast h
      · right; exact_mod_cast h
    rw [if_pos h, if_pos h', hd]
    exact ntohs_htons 514 (by decide)
  · have h' : ¬ ((wcstoul P : Int) = 0 ∨ (wcstoul P : Int) > 65535) := by
      intro hh
      apply h
      rcases hh with hh | hh
      · left; exact_mod_cast hh
      · right; exact_mod_cast hh
    rw [if_neg h, if_neg h']
    have hlt : wcstoul P < 65536 := by omega
    rw [toUShort_of_lt _ hlt]
    exact ntohs_htons _ hlt

theorem readDigits_eq_foldl (P : List Char) (acc : Nat) (h : P.all isDecDigit = true) :
    readDigits P acc = P.foldl (fun n c => n * 10 + digitVal c) acc := by
  induction P generalizing acc with
  | nil => rfl
  | cons c cs ih =>
    simp only [List.all_cons, Bool.and_eq_true] at h
    simp only [readDigits, h.1, if_true, List.foldl_cons]
    exact ih _ h.2

theorem wcstoul_digits (P : List Char) (n : Nat) (h : unsignedDecimal? P = some n) :
    wcstoul P = if n > ULONG_MAX then ULONG_MAX else n := by
  unfold unsignedDecimal? at h
  split at h
  · rename_i hP
    obtain ⟨hne, hall⟩ := hP
    simp only [Option.some.injEq] at h
    have hr := readDigits_eq_foldl P 0 hall
    rw [h] at hr
    cases P with
    | nil => exact absurd rfl hne
    | cons c cs =>
      simp only [List.all_cons, Bool.and_eq_true] at hall
      have hc := hall.1
      have hws : iswspace c = false := by
        unfold isDecDigit at hc
        unfold iswspace
        simp only [Bool.and_eq_true, decide_eq_true_eq] at hc
        simp only [Bool.or_eq_false_iff, decide_eq_false_iff_not, Bool.and_eq_false_iff]
        omega
      have hm : c ≠ '-' := by
        rintro rfl
        revert hc; decide
      have hp : c ≠ '+' := by
        rintro rfl
        revert hc; decide
      unfold wcstoul
      simp only [List.dropWhile_cons, hws]
      split
      · rename_i heq
        simp at heq
        exact absurd heq.1 hm
      · rename_i heq
        simp at heq
        exact absurd heq.1 hp
      · simp [hr]
  · simp at h

/-- C1 (amended): when the registry key opens and "SyslogPort" is read as `P`, the
destination port is decided by the number `wcstoul` reads at the start of `P`. If `P` is an
unsigned decimal integer with value `n` in [1, 65535], the port is `n`; more generally, if
`wcstoul P` lies in [1, 65535] the port is that number; if `wcstoul P` is 0 or lies above 65535
and below 2^31, the port is 514; and for an unsigned decimal integer below 2^32 `wcstoul P` is
its value. Nothing is said here about values of 2^31 and more. -/
theorem SyslogPort_decides_destination_port (env : Registry) (g : Globals) (P : List Char)
    (hk : env.keyOpened = true) (hp : env.SyslogPort = some P) :
    (∀ n, unsignedDecimal? P = some n → 1 ≤ n → n ≤ 65535 →
        destPort (LoadSettingsFromRegistry env g).2 = n)
    ∧ (1 ≤ wcstoul P → wcstoul P ≤ 65535 →
        destPort (LoadSettingsFromRegistry env g).2 = wcstoul P)
    ∧ (wcstoul P = 0 ∨ (65535 < wcstoul P ∧ wcstoul P < 2 ^ 31) →
        destPort (LoadSettingsFromRegistry env g).2 = 514)
    ∧ (∀ n, unsignedDecimal? P = some n → n < 2 ^ 32 → wcstoul P = n) := by
  have key : ∀ n, unsignedDecimal? P = some n → n < 2 ^ 32 → wcstoul P = n := by
    intro n hn hlt
    rw [wcstoul_digits P n hn, if_neg]
    unfold ULONG_MAX
    omega
  refine ⟨?_, ?_, ?_, key⟩
  · intro n hn h1 h2
    have hw : wcstoul P = n := key n hn (by omega)
    rw [destPort_of_small env g P hk hp (by omega), hw, if_neg (by omega)]
  · intro h1 h2
    rw [destPort_of_small env g P hk hp (by omega), if_neg (by omega)]
  · intro h
    have hv : wcstoul P < 2 ^ 31 := by
      rcases h with h | h
      · omega
      · exact h.2
    rw [destPort_of_small env g P hk hp hv, if_pos]
    rcases h with h | h
    · exact Or.inl h
    · exact Or.inr h.1

/-- C1, witness: "SyslogPort" = "5140" gives destination port 5140. -/
theorem SyslogPort_5140_witness :
    destPort (LoadSettingsFromRegistry (registryWithPort "5140".toList) Globals.initial).2 = 5140 :=
  (SyslogPort_decides_destination_port (registryWithPort "5140".toList) Globals.initial
    "5140".toList rfl rfl).1 5140 (by decide) (by decide) (by decide)

/-- C1, counterexample to the claim as stated: "5140abc" is not an unsigned decimal integer, yet the
destination port is 5140 and not 514. -/
theorem SyslogPort_trailing_text_counterexample :
    unsignedDecimal? "5140abc".toList = none
    ∧ destPort (LoadSettingsFromRegistry (registryWithPort "5140abc".toList) Globals.initial).2
        = 5140
    ∧ destPort (LoadSettingsFromRegistry (registryWithPort "5140abc".toList) Globals.initial).2
        ≠ 514 := by
  decide

/-- The range check of source line 112 is made on a signed `long`: a value of 2^31 or more
passes it. "4294967295" gives port 65535 and "3000000000" gives port 24064. -/
theorem SyslogPort_large_value_examples :
    destPort (LoadSettingsFromRegistry (registryWithPort "4294967295".toList) Globals.initial).2
        = 65535
    ∧ destPort (LoadSettingsFromRegistry (registryWithPort "3000000000".toList) Globals.initial).2
        = 24064 := by
  decide

theorem firstIPv4_no_inet (res : List ADDRINFOEX) (ip : Nat)
    (h : ∀ item ∈ res, item.ai_family ≠ AF_INET) : firstIPv4 res ip = ip := by
  induction res with
  | nil => rfl
  | cons item rest ih =>
    have h1 : item.ai_family ≠ AF_INET := h item (List.mem_cons_self _ _)
    simp only [firstIPv4, h1, ne_eq, not_false_eq_true, if_true]
    exact ih (fun i hi => h i (List.mem_cons_of_mem _ hi))

theorem with_syslogPort_syslogIP (g : Globals) (x : Nat) :
    ({ g with syslogPort := x } : Globals).syslogIP = g.syslogIP := rfl

theorem loadPort_some (env : Registry) (r : Bool) (g : Globals) (tmp : List Char)
    (hp : env.SyslogPort = some tmp) :
    (loadPort env r g).2 =
      if toInt32 (wcstoul tmp) = 0 ∨ toInt32 (wcstoul tmp) > 65535
      then { g with syslogPort := htons (toUShort PORT_NUMBER_DEFAULT) }
      else { g with syslogPort := htons (toUShort (toInt32 (wcstoul tmp))) } := by
  simp only [loadPort, hp]
  split <;> rfl

theorem loadPort_syslogIP (env : Registry) (r : Bool) (g : Globals) :
    (loadPort env r g).2.syslogIP = g.syslogIP := by
  cases hp : env.SyslogPort with
  | none => simp only [loadPort, hp]
  | some tmp =>
    rw [loadPort_some env r g tmp hp]
    split
    · exact with_syslogPort_syslogIP _ _
    · exact with_syslogPort_syslogIP _ _

theorem loadHost_syslogIP (env : Registry) (g : Globals) (h : noDestination env) :
    (loadHost env g).2.syslogIP = g.syslogIP := by
  unfold loadHost
  rcases h with h | ⟨host, hh, hr⟩
  · rw [h]
  · rw [hh]
    rcases hr with hr | ⟨res, hr, hall⟩
    · simp only [hr]
    · simp only [hr]
      exact firstIPv4_no_inet res _ hall

theorem LoadSettings_syslogIP (env : Registry) (g : Globals) (h : noDestination env) :
    (LoadSettingsFromRegistry env g).2.syslogIP = g.syslogIP := by
  unfold LoadSettingsFromRegistry
  split
  · rfl
  · dsimp only
    rw [loadPort_syslogIP, loadHost_syslogIP env g h]

/-- C5: when the "SyslogHost" value is absent or its name resolution yields no IPv4 address,
whatever "SyslogPort" holds, `RealMain` started from the initial globals returns -1, and it does
so without a call of `EvtOpenChannelEnum` and without a call of `EvtSubscribe`: no subscription
exists, so the callback that sends datagrams is never installed. -/
theorem RealMain_without_destination (env : MainEnv) (h : noDestination env.registry) :
    (RealMainStart env Globals.initial).2.2 = MainOutcome.returned (-1)
    ∧ (∀ opened, MainCall.EvtOpenChannelEnum opened ∉ (RealMainStart env Globals.initial).2.1)
    ∧ (∀ channel, MainCall.EvtSubscribe channel ∉ (RealMainStart env Globals.initial).2.1) := by
  have hip : (LoadSettingsFromRegistry env.registry Globals.initial).2.syslogIP = INADDR_NONE :=
    LoadSettings_syslogIP env.registry Globals.initial h
  simp only [RealMainStart, hip, if_true]
  simp

/-- C5, witness: host "bad.invalid", which does not resolve, and port "514". -/
theorem RealMain_bad_host_witness :
    (RealMainStart { registry := registryBadHost, channels := some twentyChannels }
        Globals.initial).2.2 = MainOutcome.returned (-1) :=
  (RealMain_without_destination { registry := registryBadHost, channels := some twentyChannels }
    (Or.inr ⟨"bad.invalid".toList, rfl, Or.inl rfl⟩)).1

theorem subscribeLoop_spec (steps : List ChannelStep) (st : LoopState)
    (h : ∀ c ∈ steps, c.enumerated) :
    (subscribeLoop steps st).attempted = st.attempted ++ steps.map (fun c => c.name)
    ∧ (subscribeLoop steps st).subscriptions =
        st.subscriptions ++ (steps.filter (fun c => c.hnd ≠ 0)).map (fun c => c.hnd)
    ∧ ((subscribeLoop steps st).failedSome = true ↔
        st.failedSome = true ∨ ∃ c ∈ steps, c.hnd = 0 ∧ c.err ≠ ERROR_NOT_SUPPORTED) := by
  induction steps generalizing st with
  | nil => simp [subscribeLoop]
  | cons c rest ih =>
    have hc : c.enumerated := h c (List.mem_cons_self _ _)
    have hrest : ∀ c ∈ rest, c.enumerated := fun x hx => h x (List.mem_cons_of_mem _ hx)
    obtain ⟨h1, h2, h3⟩ := hc
    simp only [subscribeLoop, h1, h2, h3]
    simp only [Bool.false_eq_true, ne_eq, not_true_eq_false, or_self, if_false]
    by_cases hh : c.hnd = 0
    · by_cases he : c.err = ERROR_NOT_SUPPORTED
      · simp only [hh, he, if_true]
        obtain ⟨a, b, d⟩ := ih _ hrest
        refine ⟨?_, ?_, ?_⟩
        · rw [a]; simp
        · rw [b]; simp [hh]
        · rw [d]; simp [hh, he]
      · simp only [hh, he, if_true, if_false]
        obtain ⟨a, b, d⟩ := ih _ hrest
        refine ⟨?_, ?_, ?_⟩
        · rw [a]; simp
        · rw [b]; simp [hh]
        · rw [d]; simp [hh, he]
    · simp only [hh, if_false]
      obtain ⟨a, b, d⟩ := ih _ hrest
      refine ⟨?_, ?_, ?_⟩
      · rw [a]; simp
      · rw [b]; simp [hh]
      · rw [d]; simp [hh]

/-- C4: for every sequence of enumerated channels and whatever `EvtSubscribe` answers for
each of them, the loop of source lines 232 to 252 calls `EvtSubscribe` for every channel in
enumeration order, ends with exactly the handles of the successful calls in `subscriptions`, in
that order, and has `failedSome` set if and only if some call failed with an error other than
`ERROR_NOT_SUPPORTED`. -/
theorem subscribe_loop_attempts_every_channel (steps : List ChannelStep)
    (h : ∀ c ∈ steps, c.enumerated) :
    (subscribeLoop steps { failedSome := false, subscriptions := [], attempted := [] }).attempted
        = steps.map (fun c => c.name)
    ∧ (subscribeLoop steps { failedSome := false, subscriptions := [], attempted := [] }).subscriptions
        = (steps.filter (fun c => c.hnd ≠ 0)).map (fun c => c.hnd)
    ∧ ((subscribeLoop steps { failedSome := false, subscriptions := [], attempted := [] }).failedSome
          = true ↔ ∃ c ∈ steps, c.hnd = 0 ∧ c.err ≠ ERROR_NOT_SUPPORTED) := by
  have := subscribeLoop_spec steps { failedSome := false, subscriptions := [], attempted := [] } h
  simpa using this

/-- C4, witness: twenty channels, three of them not supported and one failing otherwise, give
twenty attempts, sixteen subscriptions and the flag set. -/
theorem twenty_channels_witness :
    (subscribeLoop twentyChannels
        { failedSome := false, subscriptions := [], attempted := [] }).attempted.length = 20
    ∧ (subscribeLoop twentyChannels
        { failedSome := false, subscriptions := [], attempted := [] }).subscriptions.length = 16
    ∧ (subscribeLoop twentyChannels
        { failedSome := false, subscriptions := [], attempted := [] }).failedSome = true := by
  obtain ⟨a, b, c⟩ := subscribe_loop_attempts_every_channel twentyChannels (by decide)
  refine ⟨?_, ?_, ?_⟩
  · rw [a]; decide
  · rw [b]; decide
  · rw [c]; decide

theorem datagrams_append (a b : List Call) : datagrams (a ++ b) = datagrams a ++ datagrams b := by
  induction a with
  | nil => rfl
  | cons c t ih => cases c <;> simp [datagrams, ih]

theorem propertyReads_append (a b : List Call) :
    propertyReads (a ++ b) = propertyReads a ++ propertyReads b := by
  induction a with
  | nil => rfl
  | cons c t ih => cases c <;> simp [propertyReads, ih]

theorem propertyReads_formatAndSend (g : Globals) (env : EventEnv) (p : List Char)
    (t : SYSTEMTIME) (pid : Nat) (c : List Char) (e : Nat) :
    propertyReads (formatAndSend g env p t pid c e) = [] := by
  unfold formatAndSend
  dsimp only
  split
  · rfl
  · split
    · rfl
    · split
      · split <;> rfl
      · rfl

/-- The trace of a successfully rendered event. -/
theorem EvtCallback_rendered (g : Globals) (env : EventEnv) (providerName : List Char)
    (fileTime pid : Nat) (computerName : List Char) (eventID : Nat)
    (h : Rendered env providerName fileTime pid computerName eventID) :
    EvtCallback g EvtSubscribeActionDeliver env =
      [Call.EvtCreateRenderContext env.renderCtx, Call.EvtRender false, Call.EvtRender true,
       Call.property EvtSystemProviderName, Call.property EvtSystemTimeCreated,
       Call.FileTimeToSystemTime fileTime, Call.property EvtSystemProcessID,
       Call.property EvtSystemComputer, Call.property EvtSystemEventID,
       Call.EvtOpenPublisherMetadata env.metadata, Call.EvtFormatMessage false,
       Call.EvtFormatMessage true, Call.socket env.socket,
       Call.sendto env.socket
         (snprintf2048 env.keptOnError
           (formatLine env.wctomb (env.FileTimeToSystemTime fileTime) computerName providerName
             eventID pid env.formatBuffer))
         g.syslogIP g.syslogPort,
       Call.closesocket env.socket, Call.EvtClose env.metadata, Call.EvtClose env.renderCtx] := by
  have hc : ¬ env.properties.length ≤ EvtSystemUserID := Nat.not_le.mpr h.count
  have hp : pid % 2 ^ 32 = pid := Nat.mod_eq_of_lt h.pidBound
  have he : eventID % 2 ^ 16 = eventID := Nat.mod_eq_of_lt h.eventBound
  simp only [EvtCallback, formatAndSend, h.probe, h.probeErr, h.render, hc, h.provider, h.time,
    h.process, h.computer, h.event, h.formatProbe, h.formatProbeErr, h.format, hp, he]
  simp

theorem fmtU_eq_zeroPadded (w n : Nat) : fmtU w n = zeroPadded w n := rfl

theorem fmtD_natCast (n : Nat) : fmtD (n : Int) = decimal n := by
  unfold fmtD
  rw [if_neg (by omega)]
  rfl

theorem fmtD_toInt32 (n : Nat) (h : n < 2 ^ 31) : fmtD (toInt32 n) = decimal n := by
  rw [toInt32_of_lt n h, fmtD_natCast]

theorem completeLine_eq_syslogLine (t : SYSTEMTIME) (computer provider : List Char)
    (eventID pid : Nat) (message : List Char) (he : eventID < 2 ^ 16) (hp : pid < 2 ^ 31) :
    completeLine t computer provider eventID pid message
      = syslogLine t computer provider eventID pid message := by
  have h3 : fmtD 3 = ['3'] := by decide
  unfold completeLine syslogLine timestamp
  rw [fmtD_toInt32 eventID (by omega), fmtD_toInt32 pid hp, h3]
  simp only [fmtU_eq_zeroPadded, String.toList, List.append_assoc, List.cons_append,
    List.nil_append, List.singleton_append]

theorem snprintf2048_complete (k : Nat) (output : List Char) :
    snprintf2048 k (output, true) = output.take 2047 := by
  unfold snprintf2048
  rw [if_pos rfl]

theorem snprintf2048_of_short (k : Nat) (output : List Char) (h : output.length < 2048) :
    snprintf2048 k (output, true) = output := by
  rw [snprintf2048_complete]
  exact List.take_of_length_le (by omega)

theorem fmtS_unchanged (wctomb : Char → Option (List Char)) (text : List Char)
    (h : unchangedByS wctomb text) : fmtS wctomb text = (text, true) := by
  induction text with
  | nil => rfl
  | cons c cs ih =>
    have hc : wctomb c = some [c] := h c (List.mem_cons_self _ _)
    have hcs : unchangedByS wctomb cs := fun x hx => h x (List.mem_cons_of_mem _ hx)
    simp only [fmtS, hc, ih hcs, List.singleton_append]

/-- When the three `%S` arguments can be converted, `snprintf` gets to the end of the format
string and writes the complete line with their converted forms. -/
theorem formatLine_complete (wctomb : Char → Option (List Char)) (t : SYSTEMTIME)
    (computer provider : List Char) (eventID pid : Nat) (message : List Char)
    (hc : (fmtS wctomb computer).2 = true) (hp : (fmtS wctomb provider).2 = true)
    (hm : (fmtS wctomb message).2 = true) :
    formatLine wctomb t computer provider eventID pid message =
      (completeLine t (fmtS wctomb computer).1 (fmtS wctomb provider).1 eventID pid
        (fmtS wctomb message).1, true) := by
  unfold formatLine
  rw [if_neg (by rw [hc]; decide), if_neg (by rw [hp]; decide), hm]

theorem formatLine_unchanged (wctomb : Char → Option (List Char)) (t : SYSTEMTIME)
    (computer provider : List Char) (eventID pid : Nat) (message : List Char)
    (hc : unchangedByS wctomb computer) (hp : unchangedByS wctomb provider)
    (hm : unchangedByS wctomb message) :
    formatLine wctomb t computer provider eventID pid message =
      (completeLine t computer provider eventID pid message, true) := by
  have h1 := fmtS_unchanged wctomb computer hc
  have h2 := fmtS_unchanged wctomb provider hp
  have h3 := fmtS_unchanged wctomb message hm
  rw [formatLine_complete wctomb t computer provider eventID pid message (by rw [h1])
    (by rw [h2]) (by rw [h3]), h1, h2, h3]

theorem digitChar_ne_space (m : Nat) (h : m < 10) : Nat.digitChar m ≠ ' ' := by
  interval_cases m <;> decide

theorem toDigitsCore_no_space (fuel n : Nat) (ds : List Char) (h : ' ' ∉ ds) :
    ' ' ∉ Nat.toDigitsCore 10 fuel n ds := by
  induction fuel generalizing n ds with
  | zero => simpa [Nat.toDigitsCore] using h
  | succ k ih =>
    have hd : ' ' ∉ Nat.digitChar (n % 10) :: ds := by
      intro hm
      rcases List.mem_cons.mp hm with hm | hm
      · exact digitChar_ne_space (n % 10) (Nat.mod_lt _ (by decide)) hm.symm
      · exact h hm
    simp only [Nat.toDigitsCore]
    split
    · exact hd
    · exact ih _ _ hd

theorem toDigits_no_space (n : Nat) : ' ' ∉ Nat.toDigits 10 n :=
  toDigitsCore_no_space _ _ _ (by simp)

theorem fmtU_no_space (w n : Nat) : ' ' ∉ fmtU w n := by
  unfold fmtU
  intro h
  rcases List.mem_append.mp h with h | h
  · have := List.eq_of_mem_replicate h
    revert this; decide
  · exact toDigits_no_space n h

theorem fmtD_no_space (i : Int) : ' ' ∉ fmtD i := by
  unfold fmtD
  split
  · intro h
    rcases List.mem_cons.mp h with h | h
    · revert h; decide
    · exact toDigits_no_space _ h
  · exact toDigits_no_space _

/-- The timestamp part of the output of the format string. -/
theorem stamp_no_space (t : SYSTEMTIME) :
    ' ' ∉ fmtU 4 t.wYear ++ ['-'] ++ fmtU 2 t.wMonth ++ ['-'] ++ fmtU 2 t.wDay
      ++ ['T'] ++ fmtU 2 t.wHour ++ [':'] ++ fmtU 2 t.wMinute
      ++ [':'] ++ fmtU 2 t.wSecond ++ ['.'] ++ fmtU 3 t.wMilliseconds ++ ['Z'] := by
  simp only [List.mem_append, List.mem_singleton, not_or]
  refine ⟨⟨⟨⟨⟨⟨⟨⟨⟨⟨⟨⟨⟨?_, ?_⟩, ?_⟩, ?_⟩, ?_⟩, ?_⟩, ?_⟩, ?_⟩, ?_⟩, ?_⟩, ?_⟩, ?_⟩, ?_⟩, ?_⟩ <;>
    first
    | exact fmtU_no_space _ _
    | decide

theorem fmtD_three : fmtD 3 = ['3'] := by decide

theorem shape (y mo d h mi s ms c p e q msg : List Char) :
    ['<'] ++ ['3'] ++ ['>', '1', ' ']
    ++ y ++ ['-'] ++ mo ++ ['-'] ++ d
    ++ ['T'] ++ h ++ [':'] ++ mi
    ++ [':'] ++ s ++ ['.'] ++ ms ++ ['Z', ' ']
    ++ c ++ [' '] ++ p ++ [' ']
    ++ e ++ [' '] ++ q ++ [' ', '-', ' ']
    ++ msg = [' '].intercalate [['<', '3', '>', '1'],
   y ++ ['-'] ++ mo ++ ['-'] ++ d
      ++ ['T'] ++ h ++ [':'] ++ mi
      ++ [':'] ++ s ++ ['.'] ++ ms ++ ['Z'],
   c, p, e, q, ['-']] ++ ' ' :: msg := by
  simp only [List.intercalate, List.intersperse, List.flatten, List.append_assoc, List.cons_append,
    List.nil_append, List.singleton_append, List.append_nil]

theorem completeLine_eq_intercalate (t : SYSTEMTIME) (computer provider : List Char)
    (eventID pid : Nat) (message : List Char) :
    completeLine t computer provider eventID pid message =
      [' '].intercalate (lineFields t computer provider eventID pid) ++ ' ' :: message := by
  unfold completeLine lineFields
  rw [fmtD_three]
  exact shape _ _ _ _ _ _ _ _ _ _ _ _

theorem headerFields_completeLine (t : SYSTEMTIME) (computer provider : List Char)
    (eventID pid : Nat) (message : List Char) (hc : ' ' ∉ computer) (hp : ' ' ∉ provider) :
    headerFields (completeLine t computer provider eventID pid message) message =
      lineFields t computer provider eventID pid := by
  unfold headerFields
  rw [completeLine_eq_intercalate]
  have hl : (([' '].intercalate (lineFields t computer provider eventID pid)
      ++ ' ' :: message).length - (message.length + 1)) =
      ([' '].intercalate (lineFields t computer provider eventID pid)).length := by
    simp only [List.length_append, List.length_cons]
    omega
  rw [hl, List.take_left']
  · apply List.splitOn_intercalate
    · intro l hl
      unfold lineFields at hl
      simp only [List.mem_cons, List.mem_singleton, List.not_mem_nil, or_false] at hl
      rcases hl with h | h | h | h | h | h | h
      · rw [h]; decide
      · rw [h]; exact stamp_no_space t
      · rw [h]; exact hc
      · rw [h]; exact hp
      · rw [h]; exact fmtD_no_space _
      · rw [h]; exact fmtD_no_space _
      · rw [h]; decide
    · unfold lineFields
      exact List.cons_ne_nil _ _
  · rfl

theorem datagrams_rendered (g : Globals) (env : EventEnv) (providerName : List Char)
    (fileTime pid : Nat) (computerName : List Char) (eventID : Nat)
    (h : Rendered env providerName fileTime pid computerName eventID) :
    datagrams (EvtCallback g EvtSubscribeActionDeliver env) =
      [snprintf2048 env.keptOnError
        (formatLine env.wctomb (env.FileTimeToSystemTime fileTime) computerName providerName
          eventID pid env.formatBuffer)] := by
  rw [EvtCallback_rendered g env providerName fileTime pid computerName eventID h]
  rfl

theorem eventWith_rendered (provider computer message : List Char) (eventID pid fileTime : Nat)
    (hp : pid < 2 ^ 32) (he : eventID < 2 ^ 16) :
    Rendered
      (eventWith
        (systemProperties provider computer (EVT_VARIANT.UInt16 eventID) (EVT_VARIANT.UInt32 pid)
          (EVT_VARIANT.FileTime fileTime)) message)
      provider fileTime pid computer eventID :=
  { probe := rfl, probeErr := rfl, render := rfl
    count := by simp [eventWith, systemProperties, EvtSystemUserID]
    provider := rfl, time := rfl, process := rfl, pidBound := hp, computer := rfl, event := rfl
    eventBound := he, formatProbe := rfl, formatProbeErr := rfl, format := rfl }

theorem kernelGeneral_rendered (pid : Nat) (hp : pid < 2 ^ 32) :
    Rendered (kernelGeneralEvent pid) "Kernel-General".toList 133537680005000000 pid
      "HOST1".toList 16 :=
  eventWith_rendered _ _ _ 16 pid _ hp (by decide)

theorem EvtCallback_reads_in_bounds (g : Globals) (Action : Nat) (env : EventEnv) :
    ∀ i ∈ propertyReads (EvtCallback g Action env), i < env.properties.length := by
  unfold EvtCallback
  split
  · simp [propertyReads]
  · dsimp only
    split
    · simp [propertyReads]
    · split
      · simp [propertyReads]
      · split
        · simp [propertyReads]
        · rename_i hlen
          have hl : 16 < env.properties.length := by
            unfold EvtSystemUserID at hlen
            omega
          repeat' split
          all_goals
            simp only [propertyReads_append, propertyReads, propertyReads_formatAndSend,
              EvtSystemProviderName, EvtSystemTimeCreated, EvtSystemProcessID, EvtSystemComputer,
              EvtSystemEventID, List.append_nil, List.append_eq, List.nil_append, List.mem_cons,
              List.not_mem_nil, or_false]
            intro i hi
            omega

theorem drop_sends_nothing (g : Globals) (Action : Nat) (env : EventEnv)
    (h : env.properties.length ≤ EvtSystemUserID
      ∨ (∀ s, env.properties[EvtSystemProviderName]? ≠ some (EVT_VARIANT.String s))
      ∨ (∀ v, env.properties[EvtSystemTimeCreated]? ≠ some (EVT_VARIANT.FileTime v))
      ∨ (∀ v, env.properties[EvtSystemProcessID]? ≠ some (EVT_VARIANT.UInt32 v))
      ∨ (∀ s, env.properties[EvtSystemComputer]? ≠ some (EVT_VARIANT.String s))
      ∨ (∀ v, env.properties[EvtSystemEventID]? ≠ some (EVT_VARIANT.UInt16 v))) :
    datagrams (EvtCallback g Action env) = [] := by
  unfold EvtCallback
  split
  · rfl
  · dsimp only
    split
    · rfl
    · split
      · rfl
      · split
        · rfl
        · rename_i hlen
          split
          · rename_i s1 h1
            split
            · rename_i v2 h2
              split
              · rename_i v3 h3
                split
                · rename_i s4 h4
                  split
                  · rename_i v5 h5
                    exfalso
                    rcases h with h | h | h | h | h | h
                    · exact hlen h
                    · exact h _ h1
                    · exact h _ h2
                    · exact h _ h3
                    · exact h _ h4
                    · exact h _ h5
                  · simp [datagrams_append, datagrams]
                · simp [datagrams_append, datagrams]
              · simp [datagrams_append, datagrams]
            · simp [datagrams_append, datagrams]
          · simp [datagrams_append, datagrams]

/-- C3: when the rendered property array is too short to contain the user-id slot, or when
one of provider name (string), creation time (file time), process id (32-bit unsigned),
computer name (string) and event id (16-bit unsigned) is missing or of another type,
`EvtCallback` hands nothing to `sendto`; and every index at which it reads the property array
lies inside the array. -/
theorem EvtCallback_drops_incomplete_event (g : Globals) (env : EventEnv)
    (h : env.properties.length ≤ EvtSystemUserID
      ∨ (∀ s, env.properties[EvtSystemProviderName]? ≠ some (EVT_VARIANT.String s))
      ∨ (∀ v, env.properties[EvtSystemTimeCreated]? ≠ some (EVT_VARIANT.FileTime v))
      ∨ (∀ v, env.properties[EvtSystemProcessID]? ≠ some (EVT_VARIANT.UInt32 v))
      ∨ (∀ s, env.properties[EvtSystemComputer]? ≠ some (EVT_VARIANT.String s))
      ∨ (∀ v, env.properties[EvtSystemEventID]? ≠ some (EVT_VARIANT.UInt16 v))) :
    datagrams (EvtCallback g EvtSubscribeActionDeliver env) = []
    ∧ ∀ i ∈ propertyReads (EvtCallback g EvtSubscribeActionDeliver env),
        i < env.properties.length :=
  ⟨drop_sends_nothing g _ env h, EvtCallback_reads_in_bounds g _ env⟩

/-- C3, witness: an event whose process-id slot is `Null`. -/
theorem missing_process_id_witness :
    datagrams (EvtCallback Globals.initial EvtSubscribeActionDeliver eventWithoutProcessID) = [] :=
  (EvtCallback_drops_incomplete_event Globals.initial eventWithoutProcessID
    (Or.inr (Or.inr (Or.inr (Or.inl (fun v hv => by
      simp [eventWithoutProcessID, eventWith, systemProperties, EvtSystemProcessID] at hv)))))).1

theorem take_min_length (l : List Char) (n : Nat) : l.take (min l.length n) = l.take n := by
  rcases Nat.le_total l.length n with h | h
  · rw [Nat.min_eq_left h, List.take_of_length_le h, List.take_of_length_le (Nat.le_refl _)]
  · rw [Nat.min_eq_right h]

theorem longMessage_rendered :
    Rendered longMessageEvent "Kernel-General".toList 133537680005000000 1234
      "HOST1".toList 16 :=
  eventWith_rendered _ _ _ 16 1234 _ (by decide) (by decide)

theorem completeLine_length_ge (t : SYSTEMTIME) (computer provider : List Char)
    (eventID pid : Nat) (message : List Char) :
    message.length ≤ (completeLine t computer provider eventID pid message).length := by
  unfold completeLine
  rw [List.length_append]
  omega

theorem replicate_x_unchanged (n : Nat) : unchangedByS asciiOnly (List.replicate n 'x') := by
  intro c hc
  rw [List.eq_of_mem_replicate hc]
  decide

theorem take_min_long (l : List Char) (h : 2047 < l.length) :
    (l.take (min l.length 2047)).length = 2047 := by
  rw [List.length_take]
  omega

theorem take_five_shape (y mo d h mi s ms c p e q msg : List Char) :
    (['<'] ++ ['3'] ++ ['>', '1', ' ']
    ++ y ++ ['-'] ++ mo ++ ['-'] ++ d
    ++ ['T'] ++ h ++ [':'] ++ mi
    ++ [':'] ++ s ++ ['.'] ++ ms ++ ['Z', ' ']
    ++ c ++ [' '] ++ p ++ [' ']
    ++ e ++ [' '] ++ q ++ [' ', '-', ' ']
    ++ msg).take 5 = ['<', '3', '>', '1', ' '] := by
  simp only [List.append_assoc, List.cons_append, List.nil_append, List.singleton_append]
  rfl

theorem completeLine_take_five (t : SYSTEMTIME) (computer provider : List Char)
    (eventID pid : Nat) (message : List Char) :
    (completeLine t computer provider eventID pid message).take 5 = ['<', '3', '>', '1', ' '] := by
  unfold completeLine
  rw [fmtD_three]
  exact take_five_shape _ _ _ _ _ _ _ _ _ _ _ _

theorem timestamp_eq (t : SYSTEMTIME) :
    fmtU 4 t.wYear ++ ['-'] ++ fmtU 2 t.wMonth ++ ['-'] ++ fmtU 2 t.wDay
      ++ ['T'] ++ fmtU 2 t.wHour ++ [':'] ++ fmtU 2 t.wMinute
      ++ [':'] ++ fmtU 2 t.wSecond ++ ['.'] ++ fmtU 3 t.wMilliseconds ++ ['Z'] = timestamp t := by
  unfold timestamp
  simp only [fmtU_eq_zeroPadded, String.toList]

theorem lineFields_eq (t : SYSTEMTIME) (computer provider : List Char) (eventID pid : Nat)
    (he : eventID < 2 ^ 16) :
    lineFields t computer provider eventID pid =
      ["<3>1".toList, timestamp t, computer, provider, decimal eventID, fmtD (toInt32 pid),
       "-".toList] := by
  unfold lineFields
  rw [timestamp_eq, fmtD_toInt32 eventID (by omega)]
  rfl

/-- C6 (amended): for every successfully rendered event whose computer name, provider name
and message consist of characters that `%S` writes unchanged, the payload begins with `<3>1 `;
and when the computer name and the provider name contain no space and the complete line is
shorter than 2048 bytes, the space-separated fields before the message are exactly these 7:
`<3>1`, the timestamp, the computer name, the provider name, the event id in decimal, the
process id as `%d` writes it (in decimal when it is below 2^31), and `-`. -/
theorem EvtCallback_line_has_seven_header_fields (g : Globals) (env : EventEnv)
    (providerName : List Char) (fileTime pid : Nat) (computerName : List Char) (eventID : Nat)
    (h : Rendered env providerName fileTime pid computerName eventID)
    (hcomputer : unchangedByS env.wctomb computerName)
    (hprovider : unchangedByS env.wctomb providerName)
    (hmessage : unchangedByS env.wctomb env.formatBuffer) :
    ∃ payload,
      datagrams (EvtCallback g EvtSubscribeActionDeliver env) = [payload]
      ∧ payload.take 5 = "<3>1 ".toList
      ∧ (' ' ∉ computerName → ' ' ∉ providerName →
          (completeLine (env.FileTimeToSystemTime fileTime) computerName providerName eventID pid
            env.formatBuffer).length < 2048 →
          headerFields payload env.formatBuffer =
              ["<3>1".toList, timestamp (env.FileTimeToSystemTime fileTime), computerName,
               providerName, decimal eventID, fmtD (toInt32 pid), "-".toList]
            ∧ (headerFields payload env.formatBuffer).length = 7
            ∧ (pid < 2 ^ 31 → fmtD (toInt32 pid) = decimal pid)) := by
  refine ⟨_, datagrams_rendered g env providerName fileTime pid computerName eventID h, ?_, ?_⟩
  · rw [formatLine_unchanged env.wctomb _ _ _ _ _ _ hcomputer hprovider hmessage,
      snprintf2048_complete, List.take_take]
    exact completeLine_take_five _ _ _ _ _ _
  · intro hc hp hlen
    rw [formatLine_unchanged env.wctomb _ _ _ _ _ _ hcomputer hprovider hmessage,
      snprintf2048_of_short _ _ hlen, headerFields_completeLine _ _ _ _ _ _ hc hp,
      lineFields_eq _ _ _ _ _ h.eventBound]
    exact ⟨rfl, rfl, fun hpid => fmtD_toInt32 pid hpid⟩

/-- C6, witness: the line of the "Kernel-General" event has the 7 header fields `<3>1`,
`2024-03-01T12:00:00.500Z`, `HOST1`, `Kernel-General`, `16`, `1234` and `-`. -/
theorem kernelGeneral_header_witness :
    ∃ payload,
      datagrams (EvtCallback Globals.initial EvtSubscribeActionDeliver (kernelGeneralEvent 1234))
        = [payload]
      ∧ payload.take 5 = "<3>1 ".toList
      ∧ headerFields payload "Process 1234 terminated".toList =
          ["<3>1".toList, "2024-03-01T12:00:00.500Z".toList, "HOST1".toList,
           "Kernel-General".toList, "16".toList, "1234".toList, "-".toList] := by
  obtain ⟨payload, h1, h2, h3⟩ := EvtCallback_line_has_seven_header_fields Globals.initial
    (kernelGeneralEvent 1234) "Kernel-General".toList 133537680005000000 1234 "HOST1".toList 16
    (kernelGeneral_rendered 1234 (by decide)) (by decide) (by decide) (by decide)
  refine ⟨payload, h1, h2, ?_⟩
  have h4 := (h3 (by decide) (by decide) (by decide)).1
  exact h4.trans (by decide)

/-- C6, counterexample to the claim as stated: the line of the "Kernel-General" event has the
7 header fields `<3>1`, timestamp, computer, provider, event id, process id and `-`, not 8. -/
theorem header_field_count_counterexample :
    datagrams (EvtCallback Globals.initial EvtSubscribeActionDeliver (kernelGeneralEvent 1234))
      = ["<3>1 2024-03-01T12:00:00.500Z HOST1 Kernel-General 16 1234 - Process 1234 terminated".toList]
    ∧ headerFields
        "<3>1 2024-03-01T12:00:00.500Z HOST1 Kernel-General 16 1234 - Process 1234 terminated".toList
        "Process 1234 terminated".toList
      = ["<3>1".toList, "2024-03-01T12:00:00.500Z".toList, "HOST1".toList,
         "Kernel-General".toList, "16".toList, "1234".toList, "-".toList]
    ∧ (headerFields
        "<3>1 2024-03-01T12:00:00.500Z HOST1 Kernel-General 16 1234 - Process 1234 terminated".toList
        "Process 1234 terminated".toList).length ≠ 8 := by
  decide

/-- A provider name with spaces adds header fields: an event of "Service Control Manager"
gives 9 space-separated fields before the message. -/
theorem provider_with_spaces_example :
    datagrams (EvtCallback Globals.initial EvtSubscribeActionDeliver serviceControlManagerEvent)
      = ["<3>1 2024-03-01T12:00:00.500Z HOST1 Service Control Manager 7036 612 - The service entered the running state.".toList]
    ∧ (headerFields
        "<3>1 2024-03-01T12:00:00.500Z HOST1 Service Control Manager 7036 612 - The service entered the running state.".toList
        "The service entered the running state.".toList).length = 9 := by
  decide

/-- C9, the code at the failing input: process id 3000000000, a valid 32-bit unsigned value,
is written as `-1294967296`, because line 197 passes `(int)pid` to `%d`. -/
theorem large_process_id_is_printed_negative :
    datagrams (EvtCallback Globals.initial EvtSubscribeActionDeliver
        (kernelGeneralEvent 3000000000))
      = ["<3>1 2024-03-01T12:00:00.500Z HOST1 Kernel-General 16 -1294967296 - Process 1234 terminated".toList] := by
  decide

/-- C10, the code at the failing input: for an event without a process id the callback
returns at line 152; the render context (handle 7) has been opened and nothing has been
closed. -/
theorem dropped_event_leaves_render_context_open :
    EvtCallback Globals.initial EvtSubscribeActionDeliver eventWithoutProcessID
      = [Call.EvtCreateRenderContext 7, Call.EvtRender false, Call.EvtRender true,
         Call.property 0, Call.property 8, Call.FileTimeToSystemTime 133537680005000000,
         Call.property 12]
    ∧ openedHandles (EvtCallback Globals.initial EvtSubscribeActionDeliver eventWithoutProcessID)
        = [7]
    ∧ closedHandles (EvtCallback Globals.initial EvtSubscribeActionDeliver eventWithoutProcessID)
        = [] := by
  decide

/-! ## The service wrapper -/

/-! ### The service process: the step function computes the step relation -/

theorem svcCall_Step (env : ServiceEnv) {caller arg : Nat} {next : SvcPc} {s : Service}
    (hsite : svcSite s.svc caller arg next) : Step env s (svcCall caller arg next s) := by
  rcases hf : s.svcFrame with _ | ⟨a, pc⟩
  · simp only [svcCall, hf]
    exact Step.svcEnter caller arg next hsite hf
  · cases pc
    · simp only [svcCall, hf, ReportSvcStatus]
      exact Step.svc473 a hf
    · simp only [svcCall, hf, ReportSvcStatus]
      exact Step.svc477 a hf
    · by_cases hc : a = SERVICE_RUNNING ∨ a = SERVICE_STOPPED
      · simp only [svcCall, hf, ReportSvcStatus, if_pos hc]
        exact Step.svc481 a 0 s.checkPointCounter hf
      · simp only [svcCall, hf, ReportSvcStatus, if_neg hc]
        exact Step.svc481 a _ _ hf
    · simp only [svcCall, hf, ReportSvcStatus]
      exact Step.svc487 caller arg a next hsite hf

theorem ctlCall_Step (env : ServiceEnv) {caller arg : Nat} {next : CtlPc} {s : Service}
    (hsite : ctlSite s.ctl caller next)
    (harg : (s.ctl = CtlPc.line508 ∧ arg = SERVICE_STOP_PENDING)
      ∨ (s.ctl = CtlPc.line513 ∧ arg = s.dwCurrentState)) :
    Step env s (ctlCall caller arg next s) := by
  rcases hf : s.ctlFrame with _ | ⟨a, pc⟩
  · simp only [ctlCall, hf]
    rcases harg with ⟨hpc, rfl⟩ | ⟨hpc, rfl⟩
    · exact Step.ctlEnter508 hpc hf
    · exact Step.ctlEnter513 hpc hf
  · cases pc
    · simp only [ctlCall, hf, ReportSvcStatus]
      exact Step.ctl473 a hf
    · simp only [ctlCall, hf, ReportSvcStatus]
      exact Step.ctl477 a hf
    · by_cases hc : a = SERVICE_RUNNING ∨ a = SERVICE_STOPPED
      · simp only [ctlCall, hf, ReportSvcStatus, if_pos hc]
        exact Step.ctl481 a 0 s.checkPointCounter hf
      · simp only [ctlCall, hf, ReportSvcStatus, if_neg hc]
        exact Step.ctl481 a _ _ hf
    · simp only [ctlCall, hf, ReportSvcStatus]
      exact Step.ctl487 caller a next hsite hf

theorem SvcMain_Step {env : ServiceEnv} {s s1 : Service} (hs : SvcMain env s = some s1) :
    Step env s s1 := by
  unfold SvcMain at hs
  split at hs
  · rename_i hpc
    simp only [Option.some.injEq] at hs
    subst hs
    exact svcCall_Step env (Or.inl ⟨hpc, rfl, rfl, rfl⟩)
  · rename_i hpc
    split at hs <;> simp only [Option.some.injEq] at hs <;> subst hs
    · exact Step.createEvent _ hpc (Or.inl rfl)
    · exact Step.createEvent _ hpc (Or.inr rfl)
  · rename_i hpc
    simp only [Option.some.injEq] at hs
    subst hs
    exact svcCall_Step env (Or.inr (Or.inl ⟨hpc, rfl, rfl, rfl⟩))
  · rename_i hpc
    simp only [Option.some.injEq] at hs
    subst hs
    exact svcCall_Step env (Or.inr (Or.inr (Or.inl ⟨hpc, rfl, rfl, rfl⟩)))
  · rename_i hpc
    split at hs <;> simp only [Option.some.injEq] at hs <;> subst hs
    · exact Step.mainReturned _ _ hpc
    · exact Step.mainWaiting _ _ hpc
  · rename_i hpc
    split at hs
    · simp only [Option.some.injEq] at hs
      subst hs
      exact Step.woken hpc
    · exact absurd hs (by simp)
  · rename_i hpc
    simp only [Option.some.injEq] at hs
    subst hs
    exact Step.mainFinished _ hpc
  · rename_i hpc
    simp only [Option.some.injEq] at hs
    subst hs
    exact svcCall_Step env (Or.inr (Or.inr (Or.inr ⟨hpc, rfl, rfl, rfl⟩)))
  · exact absurd hs (by simp)

theorem SvcCtrlHandlerNext_Step (env : ServiceEnv) {s s1 : Service}
    (hs : SvcCtrlHandlerNext s = some s1) : Step env s s1 := by
  unfold SvcCtrlHandlerNext at hs
  split at hs
  · exact absurd hs (by simp)
  · rename_i hpc
    simp only [Option.some.injEq] at hs
    subst hs
    exact ctlCall_Step env (Or.inl ⟨hpc, rfl, rfl⟩) (Or.inl ⟨hpc, rfl⟩)
  · rename_i hpc
    simp only [Option.some.injEq] at hs
    subst hs
    exact Step.setEvent hpc
  · rename_i hpc
    simp only [Option.some.injEq] at hs
    subst hs
    exact ctlCall_Step env (Or.inr ⟨hpc, rfl, rfl⟩) (Or.inr ⟨hpc, rfl⟩)
  · rename_i hpc
    simp only [Option.some.injEq] at hs
    subst hs
    exact Step.handlerReturn hpc

/-- Every step of the function `step` is a step of the relation `Step`, or it is the handling
of a control code other than `SERVICE_CONTROL_STOP`, which changes nothing. -/
theorem step_sound {env : ServiceEnv} {a : Action} {s s1 : Service}
    (hs : step env a s = some s1) : s1 = s ∨ Step env s s1 := by
  cases a with
  | service => exact Or.inr (SvcMain_Step hs)
  | control dwCtrl =>
    simp only [step] at hs
    split at hs
    · rename_i hc
      simp only [Option.some.injEq] at hs
      subst hs
      unfold SvcCtrlHandler
      split
      · rename_i hd
        subst hd
        exact Or.inr (Step.stopRequested hc)
      · exact Or.inl rfl
    · exact absurd hs (by simp)
  | handler => exact Or.inr (SvcCtrlHandlerNext_Step env hs)

/-! ### The invariant, part one: the two threads and `gSvcStatus` -/

theorem Ctrl_initial : Ctrl Service.initial := by
  constructor <;> simp [Service.initial, SvcPc.early, SvcPc.inMain, past473]

set_option maxHeartbeats 1000000 in
theorem Ctrl_Step {env : ServiceEnv} {s s1 : Service} (h : Ctrl s) (hs : Step env s s1) :
    Ctrl s1 := by
  rw [ctrl_iff] at h ⊢
  obtain ⟨h1, h2, h3, h4, h5, h6, h7, h8, h9, h10, h11⟩ := h
  cases hs with
  | svcEnter caller arg next hsite hf =>
    rcases hsite with ⟨hpc, rfl, rfl, rfl⟩ | ⟨hpc, rfl, rfl, rfl⟩ | ⟨hpc, rfl, rfl, rfl⟩
      | ⟨hpc, rfl, rfl, rfl⟩ <;>
    simp_all only [SERVICE_START_PENDING, SERVICE_STOPPED, SERVICE_RUNNING, SERVICE_STOP_PENDING,
      SERVICE_ACCEPT_STOP, SERVICE_CONTROL_STOP, controlSent, svcSite, ctlSite, past473, ne_eq,
      forall_exists_index, and_imp, not_exists, not_and, Decidable.not_not, SvcPc.early, not_or,
      stopping, SvcPc.inMain, true_and, implies_true, Option.some.injEq, forall_eq',
      OfNat.ofNat_ne_one, or_false, and_true, true_or, not_false_eq_true, and_self, or_true,
      exists_eq_left', not_true_eq_false, reduceCtorEq, Nat.reduceEqDiff, ↓reduceIte, false_and,
      and_false, false_or, imp_false, false_implies, forall_const, IsEmpty.forall_iff,
      Frame.mk.injEq, OfNat.ofNat_ne_zero, OfNat.zero_ne_ofNat, OfNat.one_ne_ofNat, one_ne_zero,
      zero_ne_one, imp_self, forall_eq, eq_self_iff_true, true_implies, or_self, not_true,
      not_false_iff, ite_true, ite_false, if_true, if_false]
  | svc473 a hf | svc477 a hf | svc481 a x y hf =>
    rcases h1 _ hf with ⟨hpc, ha⟩ | ⟨hpc, ha⟩ | ⟨hpc, ha⟩ | ⟨hpc, ha⟩ <;>
    simp_all only [SERVICE_START_PENDING, SERVICE_STOPPED, SERVICE_RUNNING, SERVICE_STOP_PENDING,
      SERVICE_ACCEPT_STOP, SERVICE_CONTROL_STOP, controlSent, svcSite, ctlSite, past473, ne_eq,
      forall_exists_index, and_imp, not_exists, not_and, Decidable.not_not, SvcPc.early, not_or,
      stopping, SvcPc.inMain, true_and, implies_true, Option.some.injEq, forall_eq',
      OfNat.ofNat_ne_one, or_false, and_true, true_or, not_false_eq_true, and_self, or_true,
      exists_eq_left', not_true_eq_false, reduceCtorEq, Nat.reduceEqDiff, ↓reduceIte, false_and,
      and_false, false_or, imp_false, false_implies, forall_const, IsEmpty.forall_iff,
      Frame.mk.injEq, OfNat.ofNat_ne_zero, OfNat.zero_ne_ofNat, OfNat.one_ne_ofNat, one_ne_zero,
      zero_ne_one, imp_self, forall_eq, eq_self_iff_true, true_implies, or_self, not_true,
      not_false_iff, ite_true, ite_false, if_true, if_false]
  | svc487 caller arg a next hsite hf =>
    rcases hsite with ⟨hpc, rfl, rfl, rfl⟩ | ⟨hpc, rfl, rfl, rfl⟩ | ⟨hpc, rfl, rfl, rfl⟩
      | ⟨hpc, rfl, rfl, rfl⟩ <;>
    simp_all only [SERVICE_START_PENDING, SERVICE_STOPPED, SERVICE_RUNNING, SERVICE_STOP_PENDING,
      SERVICE_ACCEPT_STOP, SERVICE_CONTROL_STOP, controlSent, svcSite, ctlSite, past473, ne_eq,
      forall_exists_index, and_imp, not_exists, not_and, Decidable.not_not, SvcPc.early, not_or,
      stopping, SvcPc.inMain, true_and, implies_true, Option.some.injEq, forall_eq',
      OfNat.ofNat_ne_one, or_false, and_true, true_or, not_false_eq_true, and_self, or_true,
      exists_eq_left', not_true_eq_false, reduceCtorEq, Nat.reduceEqDiff, ↓reduceIte, false_and,
      and_false, false_or, imp_false, false_implies, forall_const, IsEmpty.forall_iff,
      Frame.mk.injEq, OfNat.ofNat_ne_zero, OfNat.zero_ne_ofNat, OfNat.one_ne_ofNat, one_ne_zero,
      zero_ne_one, imp_self, forall_eq, eq_self_iff_true, true_implies, or_self, not_true,
      not_false_iff, ite_true, ite_false, if_true, if_false]
  | createEvent next hpc hnext =>
    rcases hnext with rfl | rfl <;>
    simp_all only [SERVICE_START_PENDING, SERVICE_STOPPED, SERVICE_RUNNING, SERVICE_STOP_PENDING,
      SERVICE_ACCEPT_STOP, SERVICE_CONTROL_STOP, controlSent, svcSite, ctlSite, past473, ne_eq,
      forall_exists_index, and_imp, not_exists, not_and, Decidable.not_not, SvcPc.early, not_or,
      stopping, SvcPc.inMain, true_and, implies_true, Option.some.injEq, forall_eq',
      OfNat.ofNat_ne_one, or_false, and_true, true_or, not_false_eq_true, and_self, or_true,
      exists_eq_left', not_true_eq_false, reduceCtorEq, Nat.reduceEqDiff, ↓reduceIte, false_and,
      and_false, false_or, imp_false, false_implies, forall_const, IsEmpty.forall_iff,
      Frame.mk.injEq, OfNat.ofNat_ne_zero, OfNat.zero_ne_ofNat, OfNat.one_ne_ofNat, one_ne_zero,
      zero_ne_one, imp_self, forall_eq, eq_self_iff_true, true_implies, or_self, not_true,
      not_false_iff, ite_true, ite_false, if_true, if_false]
  | mainReturned g code hpc | mainWaiting g subscriptions hpc | woken hpc
      | mainFinished code hpc =>
    simp_all only [SERVICE_START_PENDING, SERVICE_STOPPED, SERVICE_RUNNING, SERVICE_STOP_PENDING,
      SERVICE_ACCEPT_STOP, SERVICE_CONTROL_STOP, controlSent, svcSite, ctlSite, past473, ne_eq,
      forall_exists_index, and_imp, not_exists, not_and, Decidable.not_not, SvcPc.early, not_or,
      stopping, SvcPc.inMain, true_and, implies_true, Option.some.injEq, forall_eq',
      OfNat.ofNat_ne_one, or_false, and_true, true_or, not_false_eq_true, and_self, or_true,
      exists_eq_left', not_true_eq_false, reduceCtorEq, Nat.reduceEqDiff, ↓reduceIte, false_and,
      and_false, false_or, imp_false, false_implies, forall_const, IsEmpty.forall_iff,
      Frame.mk.injEq, OfNat.ofNat_ne_zero, OfNat.zero_ne_ofNat, OfNat.one_ne_ofNat, one_ne_zero,
      zero_ne_one, imp_self, forall_eq, eq_self_iff_true, true_implies, or_self, not_true,
      not_false_iff, ite_true, ite_false, if_true, if_false]
  | stopRequested hc =>
    obtain ⟨hc1, hc2⟩ := hc
    simp_all only [SERVICE_START_PENDING, SERVICE_STOPPED, SERVICE_RUNNING, SERVICE_STOP_PENDING,
      SERVICE_ACCEPT_STOP, SERVICE_CONTROL_STOP, controlSent, svcSite, ctlSite, past473, ne_eq,
      forall_exists_index, and_imp, not_exists, not_and, Decidable.not_not, SvcPc.early, not_or,
      stopping, SvcPc.inMain, true_and, implies_true, Option.some.injEq, forall_eq',
      OfNat.ofNat_ne_one, or_false, and_true, true_or, not_false_eq_true, and_self, or_true,
      exists_eq_left', not_true_eq_false, reduceCtorEq, Nat.reduceEqDiff, ↓reduceIte, false_and,
      and_false, false_or, imp_false, false_implies, forall_const, IsEmpty.forall_iff,
      Frame.mk.injEq, OfNat.ofNat_ne_zero, OfNat.zero_ne_ofNat, OfNat.one_ne_ofNat, one_ne_zero,
      zero_ne_one, imp_self, forall_eq, eq_self_iff_true, true_implies, or_self, not_true,
      not_false_iff, ite_true, ite_false, if_true, if_false]
  | ctlEnter508 hpc hf | setEvent hpc | handlerReturn hpc =>
    simp_all only [SERVICE_START_PENDING, SERVICE_STOPPED, SERVICE_RUNNING, SERVICE_STOP_PENDING,
      SERVICE_ACCEPT_STOP, SERVICE_CONTROL_STOP, controlSent, svcSite, ctlSite, past473, ne_eq,
      forall_exists_index, and_imp, not_exists, not_and, Decidable.not_not, SvcPc.early, not_or,
      stopping, SvcPc.inMain, true_and, implies_true, Option.some.injEq, forall_eq',
      OfNat.ofNat_ne_one, or_false, and_true, true_or, not_false_eq_true, and_self, or_true,
      exists_eq_left', not_true_eq_false, reduceCtorEq, Nat.reduceEqDiff, ↓reduceIte, false_and,
      and_false, false_or, imp_false, false_implies, forall_const, IsEmpty.forall_iff,
      Frame.mk.injEq, OfNat.ofNat_ne_zero, OfNat.zero_ne_ofNat, OfNat.one_ne_ofNat, one_ne_zero,
      zero_ne_one, imp_self, forall_eq, eq_self_iff_true, true_implies, or_self, not_true,
      not_false_iff, ite_true, ite_false, if_true, if_false]
  | ctlEnter513 hpc hf =>
    simp_all only [SERVICE_START_PENDING, SERVICE_STOPPED, SERVICE_RUNNING, SERVICE_STOP_PENDING,
      SERVICE_ACCEPT_STOP, SERVICE_CONTROL_STOP, controlSent, svcSite, ctlSite, past473, ne_eq,
      forall_exists_index, and_imp, not_exists, not_and, Decidable.not_not, SvcPc.early, not_or,
      stopping, SvcPc.inMain, true_and, implies_true, Option.some.injEq, forall_eq',
      OfNat.ofNat_ne_one, or_false, and_true, true_or, not_false_eq_true, and_self, or_true,
      exists_eq_left', not_true_eq_false, reduceCtorEq, Nat.reduceEqDiff, ↓reduceIte, false_and,
      and_false, false_or, imp_false, false_implies, forall_const, IsEmpty.forall_iff,
      Frame.mk.injEq, OfNat.ofNat_ne_zero, OfNat.zero_ne_ofNat, OfNat.one_ne_ofNat, one_ne_zero,
      zero_ne_one, imp_self, forall_eq, eq_self_iff_true, true_implies, or_self, not_true,
      not_false_iff, ite_true, ite_false, if_true, if_false]
  | ctl473 a hf =>
    rcases h2 _ hf with ⟨hpc, ha⟩ | ⟨hpc, ha⟩
    · simp_all only [SERVICE_START_PENDING, SERVICE_STOPPED, SERVICE_RUNNING, SERVICE_STOP_PENDING,
        SERVICE_ACCEPT_STOP, SERVICE_CONTROL_STOP, controlSent, svcSite, ctlSite, past473, ne_eq,
        forall_exists_index, and_imp, not_exists, not_and, Decidable.not_not, SvcPc.early, not_or,
        stopping, SvcPc.inMain, true_and, implies_true, Option.some.injEq, forall_eq',
        OfNat.ofNat_ne_one, or_false, and_true, true_or, not_false_eq_true, and_self, or_true,
        exists_eq_left', not_true_eq_false, reduceCtorEq, Nat.reduceEqDiff, ↓reduceIte, false_and,
        and_false, false_or, imp_false, false_implies, forall_const, IsEmpty.forall_iff,
        Frame.mk.injEq, OfNat.ofNat_ne_zero, OfNat.zero_ne_ofNat, OfNat.one_ne_ofNat, one_ne_zero,
        zero_ne_one, imp_self, forall_eq, eq_self_iff_true, true_implies, or_self, not_true,
        not_false_iff, ite_true, ite_false, if_true, if_false]
    · simp_all only [SERVICE_START_PENDING, SERVICE_STOPPED, SERVICE_RUNNING, SERVICE_STOP_PENDING,
        SERVICE_ACCEPT_STOP, SERVICE_CONTROL_STOP, controlSent, svcSite, ctlSite, past473, ne_eq,
        forall_exists_index, and_imp, not_exists, not_and, Decidable.not_not, SvcPc.early, not_or,
        stopping, SvcPc.inMain, true_and, implies_true, Option.some.injEq, forall_eq',
        OfNat.ofNat_ne_one, or_false, and_true, true_or, not_false_eq_true, and_self, or_true,
        exists_eq_left', not_true_eq_false, reduceCtorEq, Nat.reduceEqDiff, ↓reduceIte, false_and,
        and_false, false_or, imp_false, false_implies, forall_const, IsEmpty.forall_iff,
        Frame.mk.injEq, OfNat.ofNat_ne_zero, OfNat.zero_ne_ofNat, OfNat.one_ne_ofNat, one_ne_zero,
        zero_ne_one, imp_self, forall_eq, eq_self_iff_true, true_implies, or_self, not_true,
        not_false_iff, ite_true, ite_false, if_true, if_false]
      omega
  | ctl477 a hf | ctl481 a x y hf =>
    rcases h2 _ hf with ⟨hpc, ha⟩ | ⟨hpc, ha⟩ <;>
    simp_all only [SERVICE_START_PENDING, SERVICE_STOPPED, SERVICE_RUNNING, SERVICE_STOP_PENDING,
      SERVICE_ACCEPT_STOP, SERVICE_CONTROL_STOP, controlSent, svcSite, ctlSite, past473, ne_eq,
      forall_exists_index, and_imp, not_exists, not_and, Decidable.not_not, SvcPc.early, not_or,
      stopping, SvcPc.inMain, true_and, implies_true, Option.some.injEq, forall_eq',
      OfNat.ofNat_ne_one, or_false, and_true, true_or, not_false_eq_true, and_self, or_true,
      exists_eq_left', not_true_eq_false, reduceCtorEq, Nat.reduceEqDiff, ↓reduceIte, false_and,
      and_false, false_or, imp_false, false_implies, forall_const, IsEmpty.forall_iff,
      Frame.mk.injEq, OfNat.ofNat_ne_zero, OfNat.zero_ne_ofNat, OfNat.one_ne_ofNat, one_ne_zero,
      zero_ne_one, imp_self, forall_eq, eq_self_iff_true, true_implies, or_self, not_true,
      not_false_iff, ite_true, ite_false, if_true, if_false]
  | ctl487 caller a next hsite hf =>
    rcases hsite with ⟨hpc, rfl, rfl⟩ | ⟨hpc, rfl, rfl⟩ <;>
    simp_all only [SERVICE_START_PENDING, SERVICE_STOPPED, SERVICE_RUNNING, SERVICE_STOP_PENDING,
      SERVICE_ACCEPT_STOP, SERVICE_CONTROL_STOP, controlSent, svcSite, ctlSite, past473, ne_eq,
      forall_exists_index, and_imp, not_exists, not_and, Decidable.not_not, SvcPc.early, not_or,
      stopping, SvcPc.inMain, true_and, implies_true, Option.some.injEq, forall_eq',
      OfNat.ofNat_ne_one, or_false, and_true, true_or, not_false_eq_true, and_self, or_true,
      exists_eq_left', not_true_eq_false, reduceCtorEq, Nat.reduceEqDiff, ↓reduceIte, false_and,
      and_false, false_or, imp_false, false_implies, forall_const, IsEmpty.forall_iff,
      Frame.mk.injEq, OfNat.ofNat_ne_zero, OfNat.zero_ne_ofNat, OfNat.one_ne_ofNat, one_ne_zero,
      zero_ne_one, imp_self, forall_eq, eq_self_iff_true, true_implies, or_self, not_true,
      not_false_iff, ite_true, ite_false, if_true, if_false]

/-! ### Lists of events -/

theorem reported_append (a b : List SvcEvent) : reported (a ++ b) = reported a ++ reported b := by
  induction a with
  | nil => rfl
  | cons c t ih => cases c <;> simp [reported, ih]

theorem reported_map_Subscribed (l : List Nat) : reported (l.map SvcEvent.Subscribed) = [] := by
  induction l with
  | nil => rfl
  | cons a t ih => simpa [reported] using ih

theorem reported_map_Closed (l : List Nat) : reported (l.map SvcEvent.Closed) = [] := by
  induction l with
  | nil => rfl
  | cons a t ih => simpa [reported] using ih

theorem handling_snoc (l : List SvcEvent) (e : SvcEvent) :
    handling (l ++ [e]) = handlingAfter (handling l) e := by
  simp [handling, List.foldl_append]

theorem handlerReport_snoc (l : List SvcEvent) (e : SvcEvent) :
    handlerReport (l ++ [e]) = handlerReportAfter (handlerReport l) e := by
  simp [handlerReport, List.foldl_append]

theorem foldl_fixed {β : Type} (f : β → SvcEvent → β) (evs : List SvcEvent)
    (h : ∀ e ∈ evs, ∀ b, f b e = b) (b : β) : evs.foldl f b = b := by
  induction evs generalizing b with
  | nil => rfl
  | cons e t ih =>
    rw [List.foldl_cons, h e (List.mem_cons_self _ _) b]
    exact ih (fun e1 he1 => h e1 (List.mem_cons_of_mem _ he1)) b

theorem handling_append_fixed (l evs : List SvcEvent)
    (h : ∀ e ∈ evs, ∀ b, handlingAfter b e = b) : handling (l ++ evs) = handling l := by
  unfold handling
  rw [List.foldl_append]
  exact foldl_fixed _ _ h _

theorem handlerReport_append_fixed (l evs : List SvcEvent)
    (h : ∀ e ∈ evs, ∀ b, handlerReportAfter b e = b) :
    handlerReport (l ++ evs) = handlerReport l := by
  unfold handlerReport
  rw [List.foldl_append]
  exact foldl_fixed _ _ h _

/-- A split of `log ++ evs` at an event that does not occur in `evs` is a split of `log`. -/
theorem split_of_not_mem {e : SvcEvent} {log evs l1 l2 : List SvcEvent}
    (h : log ++ evs = l1 ++ e :: l2) (hne : e ∉ evs) :
    ∃ l2', log = l1 ++ e :: l2' ∧ l2 = l2' ++ evs := by
  rcases List.append_eq_append_iff.mp h with ⟨a', _, h2⟩ | ⟨c', h1, h2⟩
  · exfalso
    apply hne
    rw [h2]
    simp
  · cases c' with
    | nil =>
      exfalso
      apply hne
      simp only [List.nil_append] at h2
      rw [← h2]
      exact List.mem_cons_self _ _
    | cons x t =>
      simp only [List.cons_append, List.cons.injEq] at h2
      exact ⟨t, by rw [h1, h2.1], h2.2⟩

/-- A split of `log ++ [x]` at `e` is a split of `log`, or `x` is the `e` in question. -/
theorem split_snoc {e x : SvcEvent} {log l1 l2 : List SvcEvent}
    (h : log ++ [x] = l1 ++ e :: l2) :
    (∃ l2', log = l1 ++ e :: l2' ∧ l2 = l2' ++ [x]) ∨ (l1 = log ∧ x = e ∧ l2 = []) := by
  by_cases hx : e ∈ [x]
  · rcases List.append_eq_append_iff.mp h with ⟨a', h1, h2⟩ | ⟨c', h1, h2⟩
    · cases a' with
      | nil =>
        right
        simp only [List.append_nil] at h1
        simp only [List.nil_append, List.cons.injEq] at h2
        exact ⟨h1, h2.1, h2.2.symm⟩
      | cons y t =>
        exfalso
        have := congrArg List.length h2
        simp at this
    · cases c' with
      | nil =>
        right
        simp only [List.append_nil] at h1
        simp only [List.nil_append, List.cons.injEq] at h2
        exact ⟨h1.symm, h2.1.symm, h2.2⟩
      | cons y t =>
        left
        simp only [List.cons_append, List.cons.injEq] at h2
        exact ⟨t, by rw [h1, h2.1], h2.2⟩
  · exact Or.inl (split_of_not_mem h hx)

theorem tornDown_append_other {l evs : List SvcEvent} (h : tornDown l)
    (h1 : SvcEvent.RealMainCalled ∉ evs) (h2 : ∀ hnd, SvcEvent.Subscribed hnd ∉ evs) :
    tornDown (l ++ evs) := by
  constructor
  · intro hc
    rcases List.mem_append.mp hc with hc | hc
    · obtain ⟨code, hr⟩ := h.1 hc
      exact ⟨code, List.mem_append_left _ hr⟩
    · exact absurd hc h1
  · intro hnd hs
    rcases List.mem_append.mp hs with hs | hs
    · exact List.mem_append_left _ (h.2 hnd hs)
    · exact absurd hs (h2 hnd)

theorem noMain_tornDown {l : List SvcEvent} (h : noMain l) : tornDown l :=
  ⟨fun hc => absurd hc h.1, fun hnd hs => absurd hs (h.2 hnd)⟩

theorem noMain_append_other {l evs : List SvcEvent} (h : noMain l)
    (h1 : SvcEvent.RealMainCalled ∉ evs) (h2 : ∀ hnd, SvcEvent.Subscribed hnd ∉ evs) :
    noMain (l ++ evs) := by
  constructor
  · intro hc
    rcases List.mem_append.mp hc with hc | hc
    · exact h.1 hc
    · exact h1 hc
  · intro hnd hs
    rcases List.mem_append.mp hs with hs | hs
    · exact h.2 hnd hs
    · exact h2 hnd hs

theorem lifecyclePhase_le_two (st : Nat) : lifecyclePhase st ≤ 2 := by
  unfold lifecyclePhase
  split
  · omega
  · split <;> omega

theorem lifecyclePhase_stopping {st : Nat} (h : stopping st) : lifecyclePhase st = 2 := by
  rcases h with h | h <;> rw [h] <;> decide

/-! ### What the first part of the invariant says at a call of line 487 -/

theorem Ctrl_not_early_of_ctlFrame {s : Service} (h : Ctrl s) {f : Frame}
    (hf : s.ctlFrame = some f) : ¬ s.svc.early := by
  intro he
  have := (h.early he).2.1
  rw [hf] at this
  exact absurd this (by simp)

theorem Ctrl_svc487 {s : Service} (h : Ctrl s) {a : Nat}
    (hf : s.svcFrame = some { dwCurrentState := a, pc := ReportPc.line487 }) :
    (s.svc = SvcPc.line402 ∧ s.dwCurrentState = SERVICE_START_PENDING)
      ∨ (s.svc = SvcPc.line440 ∧ s.dwCurrentState = SERVICE_STOPPED)
      ∨ (s.svc = SvcPc.line446 ∧ s.dwCurrentState = SERVICE_RUNNING)
      ∨ (s.svc = SvcPc.line449 ∧ stopping s.dwCurrentState) := by
  have hp : past473 s.svcFrame := ⟨_, hf, by simp⟩
  rcases h.svcFrame _ hf with ⟨hpc, _⟩ | ⟨hpc, _⟩ | ⟨hpc, _⟩ | ⟨hpc, _⟩
  · exact Or.inl ⟨hpc, (h.at402 hpc).2 hp⟩
  · exact Or.inr (Or.inl ⟨hpc, (h.at440 hpc).1 hp⟩)
  · exact Or.inr (Or.inr (Or.inl ⟨hpc, (h.at446 hpc).1 hp⟩))
  · have hne : ¬ s.svc.early := by simp [SvcPc.early, hpc]
    refine Or.inr (Or.inr (Or.inr ⟨hpc, ?_⟩))
    rcases h.late hne with hr | hst
    · rcases (h.running hne hr).2 with hm | ⟨_, hnp⟩
      · simp [SvcPc.inMain, hpc] at hm
      · exact absurd hp hnp
    · exact hst

theorem Ctrl_ctl487 {s : Service} (h : Ctrl s) {a : Nat}
    (hf : s.ctlFrame = some { dwCurrentState := a, pc := ReportPc.line487 }) :
    stopping s.dwCurrentState := by
  have hp : past473 s.ctlFrame := ⟨_, hf, by simp⟩
  have hne := Ctrl_not_early_of_ctlFrame h hf
  rcases h.late hne with hr | hst
  · rcases (h.running hne hr).1 with hi | ⟨_, hnp⟩
    · rcases h.ctlFrame _ hf with ⟨hpc, _⟩ | ⟨hpc, _⟩ <;> rw [hi] at hpc <;> cases hpc
    · exact absurd hp hnp
  · exact hst

theorem stopping_lifecycle {st : Nat} (h : stopping st) : isLifecycleStatus st := by
  rcases h with h | h
  · exact Or.inr (Or.inr (Or.inl h))
  · exact Or.inr (Or.inr (Or.inr h))

/-! ### The invariant, part two: the order of the reports -/

theorem OrderInv_initial : OrderInv Service.initial := by
  constructor <;> simp [Service.initial, reported]

theorem OrderInv_silent {s s1 : Service} (h : OrderInv s) (hlog : s1.log = s.log)
    (hG : s1.dwCurrentState = s.dwCurrentState) (hsvc : s1.svc = SvcPc.line402 → s.svc = SvcPc.line402) :
    OrderInv s1 := by
  refine ⟨fun h1 => ?_, ?_, ?_, ?_⟩
  · rw [hlog]
    exact h.at402 (hsvc h1)
  · rw [hlog]
    exact h.lifecycle
  · rw [hlog]
    exact h.sorted
  · rw [hlog, hG]
    exact h.current

theorem OrderInv_write {s s1 : Service} (h : OrderInv s) (hlog : s1.log = s.log)
    (hsvc : s1.svc = s.svc)
    (hG : s.log = [] ∨ lifecyclePhase s.dwCurrentState ≤ lifecyclePhase s1.dwCurrentState) :
    OrderInv s1 := by
  refine ⟨fun h1 => ?_, ?_, ?_, ?_⟩
  · rw [hlog]
    exact h.at402 (hsvc ▸ h1)
  · rw [hlog]
    exact h.lifecycle
  · rw [hlog]
    exact h.sorted
  · rw [hlog]
    intro st hst
    rcases hG with hG | hG
    · rw [hG] at hst
      simp [reported] at hst
    · exact Nat.le_trans (h.current st hst) hG

theorem OrderInv_report {s s1 : Service} (h : OrderInv s) (caller : Nat)
    (hlog : s1.log = s.log ++ [SvcEvent.SetServiceStatus caller s.dwCurrentState])
    (hG : s1.dwCurrentState = s.dwCurrentState) (hsvc : s1.svc ≠ SvcPc.line402)
    (hlc : isLifecycleStatus s.dwCurrentState) : OrderInv s1 := by
  have hrep : reported s1.log = reported s.log ++ [s.dwCurrentState] := by
    rw [hlog, reported_append]
    rfl
  refine ⟨fun h1 => absurd h1 hsvc, ?_, ?_, ?_⟩
  · rw [hrep]
    intro st hst
    rcases List.mem_append.mp hst with hst | hst
    · exact h.lifecycle st hst
    · rw [List.mem_singleton.mp hst]
      exact hlc
  · rw [hrep, List.pairwise_append]
    refine ⟨h.sorted, List.pairwise_singleton _ _, ?_⟩
    intro a ha b hb
    rw [List.mem_singleton.mp hb]
    exact h.current a ha
  · rw [hrep, hG]
    intro st hst
    rcases List.mem_append.mp hst with hst | hst
    · exact h.current st hst
    · rw [List.mem_singleton.mp hst]

theorem OrderInv_events {s s1 : Service} (h : OrderInv s) (evs : List SvcEvent)
    (hlog : s1.log = s.log ++ evs) (hev : reported evs = [])
    (hG : s1.dwCurrentState = s.dwCurrentState) (hsvc : s1.svc ≠ SvcPc.line402) :
    OrderInv s1 := by
  have hrep : reported s1.log = reported s.log := by
    rw [hlog, reported_append, hev, List.append_nil]
  refine ⟨fun h1 => absurd h1 hsvc, ?_, ?_, ?_⟩
  · rw [hrep]
    exact h.lifecycle
  · rw [hrep]
    exact h.sorted
  · rw [hrep, hG]
    exact h.current

theorem OrderInv_Step {env : ServiceEnv} {s s1 : Service} (hc : Ctrl s) (h : OrderInv s)
    (hs : Step env s s1) : OrderInv s1 := by
  cases hs with
  | svcEnter caller arg next hsite hf => exact OrderInv_silent h rfl rfl (fun h1 => h1)
  | svc473 a hf =>
    refine OrderInv_write h rfl rfl ?_
    have hnp : ¬ past473 s.svcFrame := by
      rintro ⟨f, hf1, hf2⟩
      rw [hf] at hf1
      cases hf1
      exact hf2 rfl
    rcases hc.svcFrame _ hf with ⟨hpc, ha⟩ | ⟨hpc, ha⟩ | ⟨hpc, ha⟩ | ⟨hpc, ha⟩
    · exact Or.inl (h.at402 hpc)
    · right
      simp only at ha
      show lifecyclePhase s.dwCurrentState ≤ lifecyclePhase a
      rw [show lifecyclePhase a = 2 by rw [ha]; decide]
      exact lifecyclePhase_le_two _
    · right
      simp only at ha
      show lifecyclePhase s.dwCurrentState ≤ lifecyclePhase a
      rw [(hc.at446 hpc).2 hnp, ha]
      decide
    · right
      simp only at ha
      show lifecyclePhase s.dwCurrentState ≤ lifecyclePhase a
      rw [show lifecyclePhase a = 2 by rw [ha]; decide]
      exact lifecyclePhase_le_two _
  | svc477 a hf => exact OrderInv_silent h rfl rfl (fun h1 => h1)
  | svc481 a x y hf => exact OrderInv_silent h rfl rfl (fun h1 => h1)
  | svc487 caller arg a next hsite hf =>
    refine OrderInv_report h caller rfl rfl ?_ ?_
    · rcases hsite with ⟨_, _, _, hn⟩ | ⟨_, _, _, hn⟩ | ⟨_, _, _, hn⟩ | ⟨_, _, _, hn⟩ <;>
        rw [show ({ s with
          scmState := s.dwCurrentState
          scmAccepted := s.dwControlsAccepted
          log := s.log ++ [SvcEvent.SetServiceStatus caller s.dwCurrentState]
          svcFrame := none
          svc := next } : Service).svc = next from rfl, hn] <;> decide
    · rcases Ctrl_svc487 hc hf with ⟨_, hG⟩ | ⟨_, hG⟩ | ⟨_, hG⟩ | ⟨_, hG⟩
      · exact Or.inl hG
      · exact Or.inr (Or.inr (Or.inr hG))
      · exact Or.inr (Or.inl hG)
      · exact stopping_lifecycle hG
  | createEvent next hpc hnext =>
    refine OrderInv_silent h rfl rfl (fun h1 => ?_)
    rcases hnext with hn | hn <;> rw [hn] at h1 <;> cases h1
  | mainReturned g code hpc =>
    exact OrderInv_events h _ rfl rfl rfl (fun h1 => SvcPc.noConfusion h1)
  | mainWaiting g subscriptions hpc =>
    refine OrderInv_events h ([SvcEvent.RealMainCalled] ++ subscriptions.map SvcEvent.Subscribed)
      (List.append_assoc _ _ _) ?_ rfl (fun h1 => SvcPc.noConfusion h1)
    rw [reported_append, reported_map_Subscribed]
    rfl
  | woken hpc => exact OrderInv_silent h rfl rfl (fun h1 => by cases h1)
  | mainFinished code hpc =>
    refine OrderInv_events h
      (s.subscriptions.map SvcEvent.Closed ++ [SvcEvent.RealMainReturned code])
      (List.append_assoc _ _ _) ?_ rfl (fun h1 => SvcPc.noConfusion h1)
    rw [reported_append, reported_map_Closed]
    rfl
  | stopRequested hcs =>
    refine OrderInv_events h [SvcEvent.StopRequested] rfl rfl rfl ?_
    intro h1
    have he : s.svc.early := Or.inl h1
    have := (hc.early he).2.2
    rw [hcs.2 rfl |>.1] at this
    exact absurd this (by decide)
  | ctlEnter508 hpc hf => exact OrderInv_silent h rfl rfl (fun h1 => h1)
  | ctlEnter513 hpc hf => exact OrderInv_silent h rfl rfl (fun h1 => h1)
  | ctl473 a hf =>
    refine OrderInv_write h rfl rfl (Or.inr ?_)
    have hst : stopping a := by
      rcases hc.ctlFrame _ hf with ⟨_, ha⟩ | ⟨_, ha⟩
      · exact Or.inl ha
      · exact ha
    rw [show lifecyclePhase
      ({ s with
          dwCurrentState := a
          ctlFrame := some { dwCurrentState := a, pc := ReportPc.line477 } } :
        Service).dwCurrentState = lifecyclePhase a from rfl, lifecyclePhase_stopping hst]
    exact lifecyclePhase_le_two _
  | ctl477 a hf => exact OrderInv_silent h rfl rfl (fun h1 => h1)
  | ctl481 a x y hf => exact OrderInv_silent h rfl rfl (fun h1 => h1)
  | ctl487 caller a next hsite hf =>
    refine OrderInv_report h caller rfl rfl ?_ (stopping_lifecycle (Ctrl_ctl487 hc hf))
    intro h1
    exact Ctrl_not_early_of_ctlFrame hc hf (Or.inl h1)
  | setEvent hpc =>
    refine OrderInv_events h [SvcEvent.SetEvent] rfl rfl rfl ?_
    intro h1
    have he : s.svc.early := Or.inl h1
    have := (hc.early he).1
    rw [hpc] at this
    cases this
  | handlerReturn hpc => exact OrderInv_silent h rfl rfl (fun h1 => h1)

/-! ### The invariant, part three: the return of `RealMain` -/

theorem MainInv_initial : MainInv Service.initial :=
  ⟨fun h => SvcPc.noConfusion h, fun h => SvcPc.noConfusion h⟩

theorem MainInv_keep {s s1 : Service} (h : MainInv s) (hsvc : s1.svc = s.svc)
    (evs : List SvcEvent) (hlog : s1.log = s.log ++ evs) (hfin : Finished s → Finished s1) :
    MainInv s1 := by
  refine ⟨?_, ?_⟩
  · rw [hsvc, hlog]
    intro hpc
    obtain ⟨code, hm⟩ := h.at449 hpc
    exact ⟨code, List.mem_append_left _ hm⟩
  · rw [hsvc, hlog]
    intro hpc
    rcases h.returned hpc with ⟨code, hm⟩ | hf
    · exact Or.inl ⟨code, List.mem_append_left _ hm⟩
    · exact Or.inr (hfin hf)

theorem MainInv_Step {env : ServiceEnv} {s s1 : Service} (hc : Ctrl s) (h : MainInv s)
    (hs : Step env s s1) : MainInv s1 := by
  have svcBusy : ∀ f, s.svcFrame = some f → ¬ Finished s := by
    intro f hf hfin
    rw [hfin.2.1] at hf
    cases hf
  have ctlBusy : ∀ f, s.ctlFrame = some f → ¬ Finished s := by
    intro f hf hfin
    rw [hfin.2.2.1] at hf
    cases hf
  have svcAt : ∀ pc, s.svc = pc → pc ≠ SvcPc.returned → ¬ Finished s := by
    intro pc hpc hne hfin
    rw [hfin.1] at hpc
    exact hne hpc.symm
  have ctlAt : ∀ pc, s.ctl = pc → pc ≠ CtlPc.idle → pc ≠ CtlPc.line515 → ¬ Finished s := by
    intro pc hpc h1 h2 hfin
    rcases hfin.2.2.2.1 with hi | hi <;> rw [hi] at hpc
    · exact h1 hpc.symm
    · exact h2 hpc.symm
  cases hs with
  | svcEnter caller arg next hsite hf =>
    refine MainInv_keep h rfl [] (List.append_nil _).symm (fun hfin => absurd hfin ?_)
    rcases hsite with ⟨hpc, _⟩ | ⟨hpc, _⟩ | ⟨hpc, _⟩ | ⟨hpc, _⟩ <;>
      exact svcAt _ hpc (by decide)
  | svc473 a hf =>
    exact MainInv_keep h rfl [] (List.append_nil _).symm
      (fun hfin => absurd hfin (svcBusy _ hf))
  | svc477 a hf =>
    exact MainInv_keep h rfl [] (List.append_nil _).symm
      (fun hfin => absurd hfin (svcBusy _ hf))
  | svc481 a x y hf =>
    exact MainInv_keep h rfl [] (List.append_nil _).symm
      (fun hfin => absurd hfin (svcBusy _ hf))
  | svc487 caller arg a next hsite hf =>
    have hp : past473 s.svcFrame := ⟨_, hf, by simp⟩
    rcases hsite with ⟨hpc, _, _, hn⟩ | ⟨hpc, _, _, hn⟩ | ⟨hpc, _, _, hn⟩ | ⟨hpc, _, _, hn⟩ <;>
      subst hn
    · exact ⟨fun h1 => SvcPc.noConfusion h1, fun h1 => SvcPc.noConfusion h1⟩
    · refine ⟨fun h1 => SvcPc.noConfusion h1, fun _ => Or.inr ?_⟩
      have he := hc.early (Or.inr (Or.inr (Or.inl hpc)))
      exact ⟨rfl, rfl, he.2.1, Or.inl he.1, (hc.at440 hpc).1 hp⟩
    · exact ⟨fun h1 => SvcPc.noConfusion h1, fun h1 => SvcPc.noConfusion h1⟩
    · refine ⟨fun h1 => SvcPc.noConfusion h1, fun _ => Or.inl ?_⟩
      obtain ⟨code, hm⟩ := h.at449 hpc
      exact ⟨code, List.mem_append_left _ hm⟩
  | createEvent next hpc hnext =>
    rcases hnext with hn | hn <;> subst hn <;>
      exact ⟨fun h1 => SvcPc.noConfusion h1, fun h1 => SvcPc.noConfusion h1⟩
  | mainReturned g code hpc =>
    exact ⟨fun _ => ⟨code, by simp⟩, fun h1 => SvcPc.noConfusion h1⟩
  | mainWaiting g subscriptions hpc =>
    exact ⟨fun h1 => SvcPc.noConfusion h1, fun h1 => SvcPc.noConfusion h1⟩
  | woken hpc =>
    exact ⟨fun h1 => SvcPc.noConfusion h1, fun h1 => SvcPc.noConfusion h1⟩
  | mainFinished code hpc =>
    exact ⟨fun _ => ⟨code, by simp⟩, fun h1 => SvcPc.noConfusion h1⟩
  | stopRequested hcs =>
    refine MainInv_keep h rfl [SvcEvent.StopRequested] rfl (fun hfin => absurd hfin ?_)
    intro hfin
    exact (hcs.2 rfl).2 hfin.2.2.2.2
  | ctlEnter508 hpc hf =>
    exact MainInv_keep h rfl [] (List.append_nil _).symm
      (fun hfin => absurd hfin (ctlAt _ hpc (by decide) (by decide)))
  | ctlEnter513 hpc hf =>
    exact MainInv_keep h rfl [] (List.append_nil _).symm
      (fun hfin => absurd hfin (ctlAt _ hpc (by decide) (by decide)))
  | ctl473 a hf =>
    exact MainInv_keep h rfl [] (List.append_nil _).symm
      (fun hfin => absurd hfin (ctlBusy _ hf))
  | ctl477 a hf =>
    exact MainInv_keep h rfl [] (List.append_nil _).symm
      (fun hfin => absurd hfin (ctlBusy _ hf))
  | ctl481 a x y hf =>
    exact MainInv_keep h rfl [] (List.append_nil _).symm
      (fun hfin => absurd hfin (ctlBusy _ hf))
  | ctl487 caller a next hsite hf =>
    exact MainInv_keep h rfl [SvcEvent.SetServiceStatus caller s.dwCurrentState] rfl
      (fun hfin => absurd hfin (ctlBusy _ hf))
  | setEvent hpc =>
    exact MainInv_keep h rfl [SvcEvent.SetEvent] rfl
      (fun hfin => absurd hfin (ctlAt _ hpc (by decide) (by decide)))
  | handlerReturn hpc =>
    refine MainInv_keep h rfl [] (List.append_nil _).symm ?_
    intro hfin
    exact ⟨hfin.1, hfin.2.1, hfin.2.2.1, Or.inl rfl, hfin.2.2.2.2⟩

/-- While the dispatcher thread is inside `ReportSvcStatus` and `gSvcStatus.dwCurrentState`
is Stopped, `RealMain` has returned. -/
theorem returned_of_stopped {s : Service} (hc : Ctrl s) (hm : MainInv s) {f : Frame}
    (hf : s.ctlFrame = some f) (hG : s.dwCurrentState = SERVICE_STOPPED) :
    ∃ code, SvcEvent.RealMainReturned code ∈ s.log := by
  have hne := Ctrl_not_early_of_ctlFrame hc hf
  cases hpc : s.svc
  case line402 | line432 | line440 | line446 =>
    exact absurd (by simp [SvcPc.early, hpc]) hne
  case line448 | line257 | line264 =>
    exact absurd hG (hc.inMain (by simp [SvcPc.inMain, hpc]))
  case line449 => exact hm.at449 hpc
  case returned =>
    rcases hm.returned hpc with h1 | hfin
    · exact h1
    · rw [hfin.2.2.1] at hf
      cases hf

/-! ### The invariant, part four: the control handler -/

theorem HandlerInv_initial : HandlerInv Service.initial := by
  constructor <;> simp [Service.initial, handling]

theorem stopReported_append {l : List SvcEvent} (h : stopReported l) (evs : List SvcEvent)
    (hfix : handlerReport (l ++ evs) = handlerReport l) : stopReported (l ++ evs) := by
  obtain ⟨st, h1, h2⟩ := h
  refine ⟨st, by rw [hfix, h1], ?_⟩
  rcases h2 with h2 | ⟨h2, code, hm⟩
  · exact Or.inl h2
  · exact Or.inr ⟨h2, code, List.mem_append_left _ hm⟩

theorem HandlerInv_silent {s s1 : Service} (h : HandlerInv s) (hlog : s1.log = s.log)
    (hctl : s1.ctl = s.ctl) : HandlerInv s1 := by
  refine ⟨?_, ?_, ?_⟩
  · rw [hlog, hctl]
    exact h.handling
  · rw [hlog, hctl]
    exact h.at512
  · rw [hlog]
    exact h.setEvent

/-- Events that are neither of the handler nor `SetEvent` leave this part untouched. -/
theorem HandlerInv_events {s s1 : Service} (h : HandlerInv s) (evs : List SvcEvent)
    (hlog : s1.log = s.log ++ evs) (hctl : s1.ctl = s.ctl)
    (h1 : ∀ e ∈ evs, ∀ b, handlingAfter b e = b)
    (h2 : ∀ e ∈ evs, ∀ b, handlerReportAfter b e = b)
    (h3 : SvcEvent.SetEvent ∉ evs) : HandlerInv s1 := by
  refine ⟨?_, ?_, ?_⟩
  · rw [hlog, hctl, handling_append_fixed _ _ h1]
    exact h.handling
  · rw [hlog, hctl]
    exact fun hp => stopReported_append (h.at512 hp) evs (handlerReport_append_fixed _ _ h2)
  · intro l1 l2 hl
    rw [hlog] at hl
    obtain ⟨l2', hl', _⟩ := split_of_not_mem hl h3
    exact h.setEvent l1 l2' hl'

theorem fixed_map_Subscribed (l : List Nat) :
    (∀ e ∈ l.map SvcEvent.Subscribed, ∀ b, handlingAfter b e = b)
      ∧ (∀ e ∈ l.map SvcEvent.Subscribed, ∀ b, handlerReportAfter b e = b)
      ∧ SvcEvent.SetEvent ∉ l.map SvcEvent.Subscribed
      ∧ (∀ caller st, SvcEvent.SetServiceStatus caller st ∉ l.map SvcEvent.Subscribed) := by
  refine ⟨?_, ?_, ?_, ?_⟩
  · intro e he b
    obtain ⟨a, _, rfl⟩ := List.mem_map.mp he
    rfl
  · intro e he b
    obtain ⟨a, _, rfl⟩ := List.mem_map.mp he
    rfl
  · simp
  · simp

theorem fixed_map_Closed (l : List Nat) :
    (∀ e ∈ l.map SvcEvent.Closed, ∀ b, handlingAfter b e = b)
      ∧ (∀ e ∈ l.map SvcEvent.Closed, ∀ b, handlerReportAfter b e = b)
      ∧ SvcEvent.SetEvent ∉ l.map SvcEvent.Closed
      ∧ (∀ caller st, SvcEvent.SetServiceStatus caller st ∉ l.map SvcEvent.Closed) := by
  refine ⟨?_, ?_, ?_, ?_⟩
  · intro e he b
    obtain ⟨a, _, rfl⟩ := List.mem_map.mp he
    rfl
  · intro e he b
    obtain ⟨a, _, rfl⟩ := List.mem_map.mp he
    rfl
  · simp
  · simp

theorem HandlerInv_Step {env : ServiceEnv} {s s1 : Service} (hc : Ctrl s) (hm : MainInv s)
    (h : HandlerInv s) (hs : Step env s s1) : HandlerInv s1 := by
  cases hs with
  | svcEnter caller arg next hsite hf => exact HandlerInv_silent h rfl rfl
  | svc473 a hf => exact HandlerInv_silent h rfl rfl
  | svc477 a hf => exact HandlerInv_silent h rfl rfl
  | svc481 a x y hf => exact HandlerInv_silent h rfl rfl
  | svc487 caller arg a next hsite hf =>
    refine HandlerInv_events h [SvcEvent.SetServiceStatus caller s.dwCurrentState] rfl rfl
      ?_ ?_ (by simp)
    · intro e he b
      rw [List.mem_singleton.mp he]
      rcases hsite with ⟨_, hn, _, _⟩ | ⟨_, hn, _, _⟩ | ⟨_, hn, _, _⟩ | ⟨_, hn, _, _⟩ <;>
        rw [hn] <;> rfl
    · intro e he b
      rw [List.mem_singleton.mp he]
      rcases hsite with ⟨_, hn, _, _⟩ | ⟨_, hn, _, _⟩ | ⟨_, hn, _, _⟩ | ⟨_, hn, _, _⟩ <;>
        rw [hn] <;> rfl
  | createEvent next hpc hnext => exact HandlerInv_silent h rfl rfl
  | mainReturned g code hpc =>
    refine HandlerInv_events h _ rfl rfl ?_ ?_ (by simp)
    · intro e he b
      simp only [List.mem_cons, List.mem_singleton, List.not_mem_nil, or_false] at he
      rcases he with he | he <;> rw [he] <;> rfl
    · intro e he b
      simp only [List.mem_cons, List.mem_singleton, List.not_mem_nil, or_false] at he
      rcases he with he | he <;> rw [he] <;> rfl
  | mainWaiting g subscriptions hpc =>
    obtain ⟨f1, f2, f3, _⟩ := fixed_map_Subscribed subscriptions
    refine HandlerInv_events h
      ([SvcEvent.RealMainCalled] ++ subscriptions.map SvcEvent.Subscribed)
      (List.append_assoc _ _ _) rfl ?_ ?_ ?_
    · intro e he b
      rcases List.mem_append.mp he with he | he
      · rw [List.mem_singleton.mp he]
        rfl
      · exact f1 e he b
    · intro e he b
      rcases List.mem_append.mp he with he | he
      · rw [List.mem_singleton.mp he]
        rfl
      · exact f2 e he b
    · intro he
      rcases List.mem_append.mp he with he | he
      · simp at he
      · exact f3 he
  | woken hpc => exact HandlerInv_silent h rfl rfl
  | mainFinished code hpc =>
    obtain ⟨f1, f2, f3, _⟩ := fixed_map_Closed s.subscriptions
    refine HandlerInv_events h
      (s.subscriptions.map SvcEvent.Closed ++ [SvcEvent.RealMainReturned code])
      (List.append_assoc _ _ _) rfl ?_ ?_ ?_
    · intro e he b
      rcases List.mem_append.mp he with he | he
      · exact f1 e he b
      · rw [List.mem_singleton.mp he]
        rfl
    · intro e he b
      rcases List.mem_append.mp he with he | he
      · exact f2 e he b
      · rw [List.mem_singleton.mp he]
        rfl
    · intro he
      rcases List.mem_append.mp he with he | he
      · exact f3 he
      · simp at he
  | stopRequested hcs =>
    refine ⟨?_, ?_, ?_⟩
    · show handling (s.log ++ [SvcEvent.StopRequested]) = true ↔ _
      rw [handling_snoc]
      exact ⟨fun _ => Or.inl rfl, fun _ => rfl⟩
    · intro h1
      cases h1
    · intro l1 l2 hl
      rcases split_snoc hl with ⟨l2', hl', _⟩ | ⟨_, he, _⟩
      · exact h.setEvent l1 l2' hl'
      · cases he
  | ctlEnter508 hpc hf => exact HandlerInv_silent h rfl rfl
  | ctlEnter513 hpc hf => exact HandlerInv_silent h rfl rfl
  | ctl473 a hf => exact HandlerInv_silent h rfl rfl
  | ctl477 a hf => exact HandlerInv_silent h rfl rfl
  | ctl481 a x y hf => exact HandlerInv_silent h rfl rfl
  | ctl487 caller a next hsite hf =>
    have hold : ∀ l1 l2,
        s.log ++ [SvcEvent.SetServiceStatus caller s.dwCurrentState]
          = l1 ++ SvcEvent.SetEvent :: l2 → stopReported l1 := by
      intro l1 l2 hl
      rcases split_snoc hl with ⟨l2', hl', _⟩ | ⟨_, he, _⟩
      · exact h.setEvent l1 l2' hl'
      · cases he
    rcases hsite with ⟨hpc, hn, hx⟩ | ⟨hpc, hn, hx⟩
    · subst hn hx
      refine ⟨?_, ?_, hold⟩
      · show handling (s.log ++ [SvcEvent.SetServiceStatus 508 s.dwCurrentState]) = true ↔ _
        rw [handling_snoc]
        show handling s.log = true ↔ _
        rw [h.handling, hpc]
        simp
      · intro _
        refine ⟨s.dwCurrentState, ?_, ?_⟩
        · show handlerReport (s.log ++ [SvcEvent.SetServiceStatus 508 s.dwCurrentState]) = _
          rw [handlerReport_snoc]
          rfl
        · rcases Ctrl_ctl487 hc hf with hG | hG
          · exact Or.inl hG
          · obtain ⟨code, hmem⟩ := returned_of_stopped hc hm hf hG
            exact Or.inr ⟨hG, code, List.mem_append_left _ hmem⟩
    · subst hn hx
      refine ⟨?_, ?_, hold⟩
      · show handling (s.log ++ [SvcEvent.SetServiceStatus 513 s.dwCurrentState]) = true ↔ _
        rw [handling_snoc]
        show false = true ↔ _
        simp
      · intro h1
        cases h1
  | setEvent hpc =>
    refine ⟨?_, ?_, ?_⟩
    · show handling (s.log ++ [SvcEvent.SetEvent]) = true ↔ _
      rw [handling_snoc]
      show handling s.log = true ↔ _
      rw [h.handling, hpc]
      simp
    · intro h1
      cases h1
    · intro l1 l2 hl
      rcases split_snoc hl with ⟨l2', hl', _⟩ | ⟨h1, _, _⟩
      · exact h.setEvent l1 l2' hl'
      · rw [h1]
        exact h.at512 hpc
  | handlerReturn hpc =>
    refine ⟨?_, ?_, h.setEvent⟩
    · show handling s.log = true ↔ _
      rw [h.handling, hpc]
      simp
    · intro h1
      cases h1

/-! ### The invariant, part five: `RealMain` and its subscriptions -/

theorem TeardownInv_initial : TeardownInv Service.initial := by
  refine ⟨fun _ => ⟨by simp [Service.initial], by simp [Service.initial]⟩, ?_, ?_, ?_⟩
  · intro h
    rcases h with h | h <;> cases h
  · intro h
    rcases h with h | h <;> cases h
  · intro l1 caller l2 hl
    simp [Service.initial] at hl

theorem TeardownInv_silent {s s1 : Service} (h : TeardownInv s) (hlog : s1.log = s.log)
    (hsvc : s1.svc = s.svc) (hsub : s1.subscriptions = s.subscriptions) : TeardownInv s1 := by
  refine ⟨?_, ?_, ?_, ?_⟩
  · rw [hlog, hsvc]
    exact h.beforeMain
  · rw [hlog, hsvc, hsub]
    exact h.waiting
  · rw [hlog, hsvc]
    exact h.afterMain
  · rw [hlog]
    exact h.stopped

/-- An event of the control handler that is not a Stopped report leaves this part as it
is. -/
theorem TeardownInv_event {s s1 : Service} (h : TeardownInv s) (e : SvcEvent)
    (hlog : s1.log = s.log ++ [e]) (hsvc : s1.svc = s.svc)
    (hsub : s1.subscriptions = s.subscriptions)
    (h1 : e ≠ SvcEvent.RealMainCalled) (h2 : ∀ hnd, e ≠ SvcEvent.Subscribed hnd)
    (h3 : ∀ caller, e = SvcEvent.SetServiceStatus caller SERVICE_STOPPED → tornDown s.log) :
    TeardownInv s1 := by
  have hn1 : SvcEvent.RealMainCalled ∉ [e] := by
    simpa using Ne.symm h1
  have hn2 : ∀ hnd, SvcEvent.Subscribed hnd ∉ [e] := by
    intro hnd
    simpa using Ne.symm (h2 hnd)
  refine ⟨?_, ?_, ?_, ?_⟩
  · rw [hlog, hsvc]
    exact fun hp => noMain_append_other (h.beforeMain hp) hn1 hn2
  · rw [hlog, hsvc, hsub]
    intro hp hnd hm
    rcases List.mem_append.mp hm with hm | hm
    · exact h.waiting hp hnd hm
    · exact absurd hm (hn2 hnd)
  · rw [hlog, hsvc]
    exact fun hp => tornDown_append_other (h.afterMain hp) hn1 hn2
  · intro l1 caller l2 hl
    rw [hlog] at hl
    rcases split_snoc hl with ⟨l2', hl', _⟩ | ⟨hl1, he, _⟩
    · exact h.stopped l1 caller l2' hl'
    · rw [hl1]
      exact h3 caller he

/-- When `gSvcStatus.dwCurrentState` is Stopped, `RealMain` is over. -/
theorem tornDown_of_stopped {s : Service} (hc : Ctrl s) (h : TeardownInv s)
    (hG : s.dwCurrentState = SERVICE_STOPPED) : tornDown s.log := by
  cases hpc : s.svc
  case line402 | line432 | line440 | line446 =>
    exact noMain_tornDown (h.beforeMain (Or.inl (by simp [SvcPc.early, hpc])))
  case line448 | line257 | line264 =>
    exact absurd hG (hc.inMain (by simp [SvcPc.inMain, hpc]))
  case line449 => exact h.afterMain (Or.inl hpc)
  case returned => exact h.afterMain (Or.inr hpc)

theorem TeardownInv_Step {env : ServiceEnv} {s s1 : Service} (hc : Ctrl s) (h : TeardownInv s)
    (hs : Step env s s1) : TeardownInv s1 := by
  cases hs with
  | svcEnter caller arg next hsite hf => exact TeardownInv_silent h rfl rfl rfl
  | svc473 a hf => exact TeardownInv_silent h rfl rfl rfl
  | svc477 a hf => exact TeardownInv_silent h rfl rfl rfl
  | svc481 a x y hf => exact TeardownInv_silent h rfl rfl rfl
  | svc487 caller arg a next hsite hf =>
    have hn1 : SvcEvent.RealMainCalled ∉ [SvcEvent.SetServiceStatus caller s.dwCurrentState] := by
      simp
    have hn2 : ∀ hnd, SvcEvent.Subscribed hnd
        ∉ [SvcEvent.SetServiceStatus caller s.dwCurrentState] := by
      simp
    have hstop : ∀ l1 c l2,
        s.log ++ [SvcEvent.SetServiceStatus caller s.dwCurrentState]
          = l1 ++ SvcEvent.SetServiceStatus c SERVICE_STOPPED :: l2 → tornDown l1 := by
      intro l1 c l2 hl
      rcases split_snoc hl with ⟨l2', hl', _⟩ | ⟨hl1, he, _⟩
      · exact h.stopped l1 c l2' hl'
      · rw [hl1]
        simp only [SvcEvent.SetServiceStatus.injEq] at he
        exact tornDown_of_stopped hc h he.2
    rcases hsite with ⟨hpc, _, _, hn⟩ | ⟨hpc, _, _, hn⟩ | ⟨hpc, _, _, hn⟩ | ⟨hpc, _, _, hn⟩ <;>
      subst hn
    · refine ⟨fun _ => ?_, ?_, ?_, hstop⟩
      · exact noMain_append_other (h.beforeMain (Or.inl (Or.inl hpc))) hn1 hn2
      · intro hp
        rcases hp with hp | hp <;> cases hp
      · intro hp
        rcases hp with hp | hp <;> cases hp
    · refine ⟨?_, ?_, fun _ => ?_, hstop⟩
      · intro hp
        rcases hp with hp | hp
        · rcases hp with hp | hp | hp | hp <;> cases hp
        · cases hp
      · intro hp
        rcases hp with hp | hp <;> cases hp
      · exact noMain_tornDown (noMain_append_other
          (h.beforeMain (Or.inl (Or.inr (Or.inr (Or.inl hpc))))) hn1 hn2)
    · refine ⟨fun _ => ?_, ?_, ?_, hstop⟩
      · exact noMain_append_other
          (h.beforeMain (Or.inl (Or.inr (Or.inr (Or.inr hpc))))) hn1 hn2
      · intro hp
        rcases hp with hp | hp <;> cases hp
      · intro hp
        rcases hp with hp | hp <;> cases hp
    · refine ⟨?_, ?_, fun _ => ?_, hstop⟩
      · intro hp
        rcases hp with hp | hp
        · rcases hp with hp | hp | hp | hp <;> cases hp
        · cases hp
      · intro hp
        rcases hp with hp | hp <;> cases hp
      · exact tornDown_append_other (h.afterMain (Or.inl hpc)) hn1 hn2
  | createEvent next hpc hnext =>
    refine ⟨fun _ => h.beforeMain (Or.inl (Or.inr (Or.inl hpc))), ?_, ?_, h.stopped⟩
    · intro hp
      rcases hnext with hn | hn <;> subst hn <;> rcases hp with hp | hp <;> cases hp
    · intro hp
      rcases hnext with hn | hn <;> subst hn <;> rcases hp with hp | hp <;> cases hp
  | mainReturned g code hpc =>
    have hno := h.beforeMain (Or.inr hpc)
    refine ⟨?_, ?_, fun _ => ?_, ?_⟩
    · intro hp
      rcases hp with hp | hp
      · rcases hp with hp | hp | hp | hp <;> cases hp
      · cases hp
    · intro hp
      rcases hp with hp | hp <;> cases hp
    · constructor
      · intro _
        exact ⟨code, by simp⟩
      · intro hnd hm
        rcases List.mem_append.mp hm with hm | hm
        · exact absurd hm (hno.2 hnd)
        · simp at hm
    · intro l1 caller l2 hl
      obtain ⟨l2', hl', _⟩ := split_of_not_mem hl (by simp)
      exact h.stopped l1 caller l2' hl'
  | mainWaiting g subscriptions hpc =>
    have hno := h.beforeMain (Or.inr hpc)
    refine ⟨?_, fun _ => ?_, ?_, ?_⟩
    · intro hp
      rcases hp with hp | hp
      · rcases hp with hp | hp | hp | hp <;> cases hp
      · cases hp
    · intro hnd hm
      rcases List.mem_append.mp hm with hm | hm
      · rcases List.mem_append.mp hm with hm | hm
        · exact absurd hm (hno.2 hnd)
        · simp at hm
      · simpa using hm
    · intro hp
      rcases hp with hp | hp <;> cases hp
    · intro l1 caller l2 hl
      have hl2 : s.log ++ ([SvcEvent.RealMainCalled] ++ subscriptions.map SvcEvent.Subscribed)
          = l1 ++ SvcEvent.SetServiceStatus caller SERVICE_STOPPED :: l2 := by
        rw [← List.append_assoc]
        exact hl
      obtain ⟨l2', hl', _⟩ := split_of_not_mem hl2 (by simp)
      exact h.stopped l1 caller l2' hl'
  | woken hpc =>
    refine ⟨?_, fun _ => h.waiting (Or.inl hpc), ?_, h.stopped⟩
    · intro hp
      rcases hp with hp | hp
      · rcases hp with hp | hp | hp | hp <;> cases hp
      · cases hp
    · intro hp
      rcases hp with hp | hp <;> cases hp
  | mainFinished code hpc =>
    have hsub := h.waiting (Or.inr hpc)
    refine ⟨?_, ?_, fun _ => ?_, ?_⟩
    · intro hp
      rcases hp with hp | hp
      · rcases hp with hp | hp | hp | hp <;> cases hp
      · cases hp
    · intro hp
      rcases hp with hp | hp <;> cases hp
    · constructor
      · intro _
        exact ⟨code, by simp⟩
      · intro hnd hm
        rcases List.mem_append.mp hm with hm | hm
        · rcases List.mem_append.mp hm with hm | hm
          · refine List.mem_append_left _ (List.mem_append_right _ ?_)
            exact List.mem_map.mpr ⟨hnd, hsub hnd hm, rfl⟩
          · simp at hm
        · simp at hm
    · intro l1 caller l2 hl
      have hl2 : s.log ++ (s.subscriptions.map SvcEvent.Closed
            ++ [SvcEvent.RealMainReturned code])
          = l1 ++ SvcEvent.SetServiceStatus caller SERVICE_STOPPED :: l2 := by
        rw [← List.append_assoc]
        exact hl
      obtain ⟨l2', hl', _⟩ := split_of_not_mem hl2 (by simp)
      exact h.stopped l1 caller l2' hl'
  | stopRequested hcs =>
    exact TeardownInv_event h SvcEvent.StopRequested rfl rfl rfl (by simp) (by simp)
      (fun c he => by cases he)
  | ctlEnter508 hpc hf => exact TeardownInv_silent h rfl rfl rfl
  | ctlEnter513 hpc hf => exact TeardownInv_silent h rfl rfl rfl
  | ctl473 a hf => exact TeardownInv_silent h rfl rfl rfl
  | ctl477 a hf => exact TeardownInv_silent h rfl rfl rfl
  | ctl481 a x y hf => exact TeardownInv_silent h rfl rfl rfl
  | ctl487 caller a next hsite hf =>
    refine TeardownInv_event h (SvcEvent.SetServiceStatus caller s.dwCurrentState) rfl rfl rfl
      (by simp) (by simp) ?_
    intro c he
    simp only [SvcEvent.SetServiceStatus.injEq] at he
    exact tornDown_of_stopped hc h he.2
  | setEvent hpc =>
    exact TeardownInv_event h SvcEvent.SetEvent rfl rfl rfl (by simp) (by simp)
      (fun c he => by cases he)
  | handlerReturn hpc => exact TeardownInv_silent h rfl rfl rfl

/-! ### The invariant, part six: the end of the process -/

theorem FinalInv_initial : FinalInv Service.initial := by
  intro l1 caller l2 hl
  simp [Service.initial] at hl

theorem FinalInv_silent {s s1 : Service} (h : FinalInv s) (hlog : s1.log = s.log)
    (hfin : Finished s → Finished s1) : FinalInv s1 := by
  intro l1 caller l2 hl hh
  rw [hlog] at hl
  exact ⟨(h l1 caller l2 hl hh).1, hfin (h l1 caller l2 hl hh).2⟩

theorem FinalInv_events {s s1 : Service} (h : FinalInv s) (evs : List SvcEvent)
    (hlog : s1.log = s.log ++ evs)
    (hno : ∀ caller, SvcEvent.SetServiceStatus caller SERVICE_STOPPED ∉ evs)
    (hnf : ¬ Finished s) : FinalInv s1 := by
  intro l1 caller l2 hl hh
  rw [hlog] at hl
  obtain ⟨l2', hl', _⟩ := split_of_not_mem hl (hno caller)
  exact absurd (h l1 caller l2' hl' hh).2 hnf

theorem FinalInv_report {s s1 : Service} (h : FinalInv s) (caller : Nat)
    (hlog : s1.log = s.log ++ [SvcEvent.SetServiceStatus caller s.dwCurrentState])
    (hnf : ¬ Finished s)
    (hfin : s.dwCurrentState = SERVICE_STOPPED → handling s.log = false → Finished s1) :
    FinalInv s1 := by
  intro l1 c l2 hl hh
  rw [hlog] at hl
  rcases split_snoc hl with ⟨l2', hl', _⟩ | ⟨hl1, he, hl2⟩
  · exact absurd (h l1 c l2' hl' hh).2 hnf
  · simp only [SvcEvent.SetServiceStatus.injEq] at he
    rw [hl1] at hh
    exact ⟨hl2, hfin he.2 hh⟩

/-- While no stop request is being handled the dispatcher thread is outside
`ReportSvcStatus`, before or after `SvcCtrlHandler`. -/
theorem idle_of_not_handling {s : Service} (hc : Ctrl s) (hh : HandlerInv s)
    (h : handling s.log = false) :
    s.ctlFrame = none ∧ (s.ctl = CtlPc.idle ∨ s.ctl = CtlPc.line515) := by
  have hn : ¬ (s.ctl = CtlPc.line508 ∨ s.ctl = CtlPc.line512 ∨ s.ctl = CtlPc.line513) := by
    intro hp
    have := hh.handling.mpr hp
    rw [h] at this
    cases this
  constructor
  · cases hcf : s.ctlFrame with
    | none => rfl
    | some f =>
      rcases hc.ctlFrame f hcf with ⟨hpc, _⟩ | ⟨hpc, _⟩
      · exact absurd (Or.inl hpc) hn
      · exact absurd (Or.inr (Or.inr hpc)) hn
  · cases hpc : s.ctl
    case idle => exact Or.inl rfl
    case line515 => exact Or.inr rfl
    case line508 => exact absurd (Or.inl hpc) hn
    case line512 => exact absurd (Or.inr (Or.inl hpc)) hn
    case line513 => exact absurd (Or.inr (Or.inr hpc)) hn

theorem FinalInv_Step {env : ServiceEnv} {s s1 : Service} (hc : Ctrl s) (hh : HandlerInv s)
    (h : FinalInv s) (hs : Step env s s1) : FinalInv s1 := by
  have svcBusy : ∀ f, s.svcFrame = some f → ¬ Finished s := by
    intro f hf hfin
    rw [hfin.2.1] at hf
    cases hf
  have ctlBusy : ∀ f, s.ctlFrame = some f → ¬ Finished s := by
    intro f hf hfin
    rw [hfin.2.2.1] at hf
    cases hf
  have svcAt : ∀ pc, s.svc = pc → pc ≠ SvcPc.returned → ¬ Finished s := by
    intro pc hpc hne hfin
    rw [hfin.1] at hpc
    exact hne hpc.symm
  have ctlAt : ∀ pc, s.ctl = pc → pc ≠ CtlPc.idle → pc ≠ CtlPc.line515 → ¬ Finished s := by
    intro pc hpc h1 h2 hfin
    rcases hfin.2.2.2.1 with hi | hi <;> rw [hi] at hpc
    · exact h1 hpc.symm
    · exact h2 hpc.symm
  cases hs with
  | svcEnter caller arg next hsite hf =>
    refine FinalInv_silent h rfl (fun hfin => absurd hfin ?_)
    rcases hsite with ⟨hpc, _⟩ | ⟨hpc, _⟩ | ⟨hpc, _⟩ | ⟨hpc, _⟩ <;>
      exact svcAt _ hpc (by decide)
  | svc473 a hf => exact FinalInv_silent h rfl (fun hfin => absurd hfin (svcBusy _ hf))
  | svc477 a hf => exact FinalInv_silent h rfl (fun hfin => absurd hfin (svcBusy _ hf))
  | svc481 a x y hf => exact FinalInv_silent h rfl (fun hfin => absurd hfin (svcBusy _ hf))
  | svc487 caller arg a next hsite hf =>
    refine FinalInv_report h caller rfl (svcBusy _ hf) ?_
    intro hG hnh
    obtain ⟨hcf, hctl⟩ := idle_of_not_handling hc hh hnh
    have hp : past473 s.svcFrame := ⟨_, hf, by simp⟩
    rcases hsite with ⟨hpc, _, _, hn⟩ | ⟨hpc, _, _, hn⟩ | ⟨hpc, _, _, hn⟩ | ⟨hpc, _, _, hn⟩
    · have := (hc.at402 hpc).2 hp
      rw [hG] at this
      exact absurd this (by decide)
    · subst hn
      exact ⟨rfl, rfl, hcf, hctl, hG⟩
    · have := (hc.at446 hpc).1 hp
      rw [hG] at this
      exact absurd this (by decide)
    · subst hn
      exact ⟨rfl, rfl, hcf, hctl, hG⟩
  | createEvent next hpc hnext =>
    exact FinalInv_silent h rfl (fun hfin => absurd hfin (svcAt _ hpc (by decide)))
  | mainReturned g code hpc =>
    exact FinalInv_events h _ rfl (by simp) (svcAt _ hpc (by decide))
  | mainWaiting g subscriptions hpc =>
    refine FinalInv_events h
      ([SvcEvent.RealMainCalled] ++ subscriptions.map SvcEvent.Subscribed)
      (List.append_assoc _ _ _) ?_ (svcAt _ hpc (by decide))
    simp
  | woken hpc =>
    exact FinalInv_silent h rfl (fun hfin => absurd hfin (svcAt _ hpc (by decide)))
  | mainFinished code hpc =>
    refine FinalInv_events h
      (s.subscriptions.map SvcEvent.Closed ++ [SvcEvent.RealMainReturned code])
      (List.append_assoc _ _ _) ?_ (svcAt _ hpc (by decide))
    simp
  | stopRequested hcs =>
    refine FinalInv_events h [SvcEvent.StopRequested] rfl (by simp) ?_
    intro hfin
    exact (hcs.2 rfl).2 hfin.2.2.2.2
  | ctlEnter508 hpc hf =>
    exact FinalInv_silent h rfl
      (fun hfin => absurd hfin (ctlAt _ hpc (by decide) (by decide)))
  | ctlEnter513 hpc hf =>
    exact FinalInv_silent h rfl
      (fun hfin => absurd hfin (ctlAt _ hpc (by decide) (by decide)))
  | ctl473 a hf => exact FinalInv_silent h rfl (fun hfin => absurd hfin (ctlBusy _ hf))
  | ctl477 a hf => exact FinalInv_silent h rfl (fun hfin => absurd hfin (ctlBusy _ hf))
  | ctl481 a x y hf => exact FinalInv_silent h rfl (fun hfin => absurd hfin (ctlBusy _ hf))
  | ctl487 caller a next hsite hf =>
    refine FinalInv_report h caller rfl (ctlBusy _ hf) ?_
    intro _ hnh
    have := (idle_of_not_handling hc hh hnh).1
    rw [hf] at this
    cases this
  | setEvent hpc =>
    exact FinalInv_events h [SvcEvent.SetEvent] rfl (by simp)
      (ctlAt _ hpc (by decide) (by decide))
  | handlerReturn hpc =>
    refine FinalInv_silent h rfl ?_
    intro hfin
    exact ⟨hfin.1, hfin.2.1, hfin.2.2.1, Or.inl rfl, hfin.2.2.2.2⟩

/-! ### The invariant holds in every run -/

theorem Inv_initial : Inv Service.initial :=
  ⟨Ctrl_initial, OrderInv_initial, MainInv_initial, HandlerInv_initial, TeardownInv_initial,
    FinalInv_initial⟩

theorem Inv_step {env : ServiceEnv} {a : Action} {s s1 : Service} (h : Inv s)
    (hs : step env a s = some s1) : Inv s1 := by
  rcases step_sound hs with he | hst
  · rw [he]
    exact h
  · exact ⟨Ctrl_Step h.ctrl hst, OrderInv_Step h.ctrl h.order hst,
      MainInv_Step h.ctrl h.main hst, HandlerInv_Step h.ctrl h.main h.handler hst,
      TeardownInv_Step h.ctrl h.teardown hst, FinalInv_Step h.ctrl h.handler h.final hst⟩

theorem Inv_run {env : ServiceEnv} (acts : List Action) {s s1 : Service} (h : Inv s)
    (hs : run env acts s = some s1) : Inv s1 := by
  induction acts generalizing s with
  | nil =>
    simp only [run, Option.some.injEq] at hs
    rw [← hs]
    exact h
  | cons a rest ih =>
    unfold Evtsyslog.run at hs
    cases hstep : step env a s with
    | none =>
      rw [hstep] at hs
      simp at hs
    | some s2 =>
      rw [hstep] at hs
      exact ih (Inv_step h hstep) hs

/-- When the statuses of a log come in the order StartPending, Running, stopping, all of them
are lifecycle statuses, and nothing is reported after a Stopped report, they come in the order
StartPending, Running, StopPending, Stopped. -/
theorem sorted_of_stopped_last (log : List SvcEvent)
    (hlc : ∀ st ∈ reported log, isLifecycleStatus st)
    (hph : (reported log).Pairwise (fun a b => lifecyclePhase a ≤ lifecyclePhase b))
    (hlast : ∀ l1 caller l2, log = l1 ++ SvcEvent.SetServiceStatus caller SERVICE_STOPPED :: l2 →
      reported l2 = []) :
    (reported log).Pairwise (fun a b => statusRank a ≤ statusRank b) := by
  induction log with
  | nil => simp [reported]
  | cons e t ih =>
    have htail : ∀ l1 caller l2,
        t = l1 ++ SvcEvent.SetServiceStatus caller SERVICE_STOPPED :: l2 → reported l2 = [] := by
      intro l1 caller l2 hl
      exact hlast (e :: l1) caller l2 (by rw [hl]; rfl)
    cases e with
    | SetServiceStatus caller st =>
      simp only [reported, List.pairwise_cons, List.mem_cons, forall_eq_or_imp] at hlc hph ⊢
      refine ⟨?_, ih hlc.2 hph.2 htail⟩
      intro b hb
      have hp := hph.1 b hb
      have hbl := hlc.2 b hb
      rcases hlc.1 with h1 | h1 | h1 | h1
      · rw [h1]
        exact Nat.zero_le _
      · rcases hbl with h2 | h2 | h2 | h2 <;> rw [h1, h2] at hp ⊢ <;> revert hp <;> decide
      · rcases hbl with h2 | h2 | h2 | h2 <;> rw [h1, h2] at hp ⊢ <;> revert hp <;> decide
      · have := hlast [] caller t (by rw [h1]; rfl)
        rw [this] at hb
        cases hb
    | StopRequested => exact ih hlc hph htail
    | SetEvent => exact ih hlc hph htail
    | RealMainCalled => exact ih hlc hph htail
    | Subscribed hnd => exact ih hlc hph htail
    | Closed hnd => exact ih hlc hph htail
    | RealMainReturned code => exact ih hlc hph htail

/-! ### The lifecycle of the service -/

/-- A stop request in flight when Stopped is reported: the service thread reports Stopped
and returns, then the handler reports StopPending twice. -/
theorem stop_in_flight_example :
    (run badHostEnv inFlightRun Service.initial).map (fun s => reported s.log)
      = some [SERVICE_START_PENDING, SERVICE_RUNNING, SERVICE_STOPPED, SERVICE_STOP_PENDING,
          SERVICE_STOP_PENDING] := by
  decide

end Evtsyslog
